import Mathlib

/-!
Shallow embedding of the core control/session engine of `src/JOGO.py`
(a biofeedback rehabilitation exerciser).  Python floats are modelled by
exact rationals `ℚ` wherever the program only adds, subtracts, multiplies,
divides and compares them; the power-curve `t ** gamma` of the actuation
mapper (and hence the vehicle speed it feeds) is modelled by `Real.rpow`
over `ℝ`.  The per-frame body of the `main` loop (reading, calibration,
hysteresis, banner/phase update, per-repetition metrics, physics) is
embedded as a pure state-transition function `tick` over an explicit
`State` record; drawing code is omitted (it reads but never writes the
core state).
-/

namespace Jogo

/-- The function `clamp(x, a, b)` from `src/JOGO.py`: `max(a, min(b, x))`. -/
def clamp {α : Type} [LinearOrder α] (x a b : α) : α := max a (min b x)

/-- Python `math.copysign(x, y)` on rationals: `|x|` carrying the sign of `y`.
(The Python version distinguishes `-0.0`; at every call site in the source
the sign argument is an angle with `|angle| ≥ deadzone > 0`, hence nonzero,
so the rational version is faithful there.) -/
def copysign (x y : ℚ) : ℚ := if y < 0 then -|x| else |x|

/-- The configuration dictionary `cfg` of `main` (all float entries as `ℚ`,
`reps_each` as `ℕ`). -/
structure Cfg where
  deadzone_deg : ℚ
  gamma_pos : ℚ
  gamma_neg : ℚ
  angle_max_pl_deg : ℚ
  angle_max_df_deg : ℚ
  v_max : ℚ
  v_rev_max : ℚ
  a_max : ℚ
  a_rev_max : ℚ
  px_per_m : ℚ
  drag : ℚ
  start_countdown : ℚ
  target_front : ℚ
  target_back : ℚ
  angle_enter_deg : ℚ
  angle_exit_deg : ℚ
  rep_time : ℚ
  rest_time : ℚ
  reps_each : ℕ
  settle_time : ℚ
  settle_tol_deg : ℚ
  settle_max : ℚ

/-- The concrete configuration values of `main` in `src/JOGO.py`.
Fractional literals are written with `mkRat` (`mkRat 9 10 = 0.9`,
`mkRat 5 2 = 2.5`) so that concrete states evaluate by kernel
reduction; `mkRat_as_div` below relates them to `/`. -/
def cfg : Cfg :=
  { deadzone_deg := 2
    gamma_pos := mkRat 9 10
    gamma_neg := mkRat 9 10
    angle_max_pl_deg := 30
    angle_max_df_deg := 30
    v_max := 980
    v_rev_max := 600
    a_max := 1200
    a_rev_max := 900
    px_per_m := 70
    drag := 180
    start_countdown := 8
    target_front := 20
    target_back := -20
    angle_enter_deg := 3
    angle_exit_deg := 2
    rep_time := 10
    rest_time := 2
    reps_each := 5
    settle_time := 3
    settle_tol_deg := mkRat 5 2
    settle_max := 6 }

/-- The function `map_thr_rev(angle, cfg)` from `src/JOGO.py`: deadzone plus power-curve
mapping from the calibrated angle to a `(throttle, reverse)` pair.  The
power `t ** gamma` is `Real.rpow`. -/
noncomputable def map_thr_rev (angle : ℚ) (c : Cfg) : ℝ × ℝ :=
  if |angle| < c.deadzone_deg then (0, 0)
  else
    let a_eff := copysign (|angle| - c.deadzone_deg) angle
    if a_eff > 0 then
      (((clamp (a_eff / c.angle_max_pl_deg) 0 1 : ℚ) : ℝ) ^ ((c.gamma_pos : ℚ) : ℝ), 0)
    else
      (0, ((clamp ((-a_eff) / c.angle_max_df_deg) 0 1 : ℚ) : ℝ) ^ ((c.gamma_neg : ℚ) : ℝ))

/-- Phase names of the protocol sequence (`"TRÁS"`, `"FRENTE"`,
`"TRANSIÇÃO"` and the rest/`"DESCANSO"` banner case of `main`). -/
inductive Phase
  | TRAS
  | FRENTE
  | TRANSICAO
  | DESCANSO
deriving DecidableEq, Repr

/-- The hysteresis direction state `angle_state` of `main`
(`"neutral" / "forward" / "reverse"`). -/
inductive AngleState
  | neutral
  | forward
  | reverse
deriving DecidableEq, Repr

/-- One step of the hysteresis classifier of `main`
(the `Estado por histerese` block, executed while the session is
actively controllable). -/
def hysteresisStep (c : Cfg) (st : AngleState) (angle : ℚ) : AngleState :=
  match st with
  | AngleState.neutral =>
    if angle ≥ c.angle_enter_deg then AngleState.forward
    else if angle ≤ -c.angle_enter_deg then AngleState.reverse
    else AngleState.neutral
  | AngleState.forward =>
    if angle < c.angle_exit_deg then AngleState.neutral else AngleState.forward
  | AngleState.reverse =>
    if angle > -c.angle_exit_deg then AngleState.neutral else AngleState.reverse

/-- The four-phase block appended once per repetition by the
`Protocolo de fases` loop of `main`. -/
def phaseBlock (c : Cfg) : List (Phase × ℚ) :=
  [(Phase.TRAS, c.rep_time), (Phase.TRANSICAO, c.settle_max),
   (Phase.FRENTE, c.rep_time), (Phase.TRANSICAO, c.settle_max)]

/-- The protocol sequence `seq` of `main`: the block of four phases appended
once per `reps_each` iteration. -/
def buildSeq (c : Cfg) : List (Phase × ℚ) :=
  (List.range c.reps_each).foldl (fun s _ => s ++ phaseBlock c) []

theorem replicate_flatten_comm {α : Type} (n : ℕ) (l : List α) :
    (List.replicate n l).flatten ++ l = l ++ (List.replicate n l).flatten := by
  induction n with
  | zero => simp
  | succ k ih => simp [List.replicate_succ, List.append_assoc, ih]

theorem buildSeq_eq_flatten (c : Cfg) :
    buildSeq c = (List.replicate c.reps_each (phaseBlock c)).flatten := by
  have key : ∀ (n : ℕ) (acc : List (Phase × ℚ)),
      (List.range n).foldl (fun s _ => s ++ phaseBlock c) acc =
        acc ++ (List.replicate n (phaseBlock c)).flatten := by
    intro n
    induction n with
    | zero => intro acc; simp
    | succ m ih =>
      intro acc
      rw [List.range_succ, List.foldl_append, ih]
      simp only [List.foldl_cons, List.foldl_nil, List.replicate_succ, List.flatten_cons]
      rw [List.append_assoc, replicate_flatten_comm]
  simpa using key c.reps_each []

theorem buildSeq_length (c : Cfg) : (buildSeq c).length = 4 * c.reps_each := by
  rw [buildSeq_eq_flatten, List.length_flatten]
  simp [phaseBlock, Nat.mul_comm]

/-- A finalized row of `report_rows` in `main`.  `t_target` is `none` where
the Python code stores its not-a-number sentinel (`rep_t_to_target is None`,
rendered as absent by `draw_report`). -/
structure RepRecord where
  dir : Phase
  ang_ext : ℚ
  t_target : Option ℚ
deriving DecidableEq, Repr

/-- The mutable locals of `main` that constitute the core per-tick state
(everything `reset_session` and the loop body read or write, minus the
pygame objects).  Speed/distance/scroll accumulators are `ℝ` because they
are fed by the `Real.rpow` power curve; all other numerics are `ℚ`. -/
structure State where
  now : ℚ
  zero : ℚ
  calibrating : Bool
  cal_t0 : ℚ
  cal_buf : List ℚ
  started : Bool
  start_cd_left : ℚ
  session_done : Bool
  speed : ℝ
  dist_signed_px : ℝ
  road_x : ℝ
  far_ofs : ℝ
  mid_ofs : ℝ
  idx : ℕ
  phase_name : Phase
  phase_left : ℚ
  reps_done : ℕ
  session_t0 : Option ℚ
  prev_angle_used : ℚ
  angle_state : AngleState
  rep_ang_ext : Option ℚ
  rep_hit : Bool
  rep_t_to_target : Option ℚ
  rep_t_elapsed : ℚ
  report_rows : List RepRecord
  settle_ok_time : ℚ
  settle_total_time : ℚ
  acc_abs_dist_m : ℝ
  acc_time_s : ℚ

/-- User events consumed by the event loop of `main`.  `keyZ` (the
device-side zero command) only writes to the serial port, so it is a
no-op on the core state. -/
inductive Event
  | space
  | keyR
  | keyC
  | keyZ
  | clickRestart
deriving DecidableEq, Repr

/-- The external data of one loop iteration: the measured frame time `dt`,
the latest published IMU angle `raw` (`imu.last_angle`), the latest
battery voltage `battery` (`imu.battery_v`), and the user events of this
frame. -/
structure Input where
  dt : ℚ
  raw : ℚ
  battery : Option ℚ
  events : List Event

/-- The constant `CAL_TIME` of `main`: duration of the host-side calibration window. -/
def calTime : ℚ := 4

/-- The function `reset_session()` of `main`: the full reset performed by the start and
restart commands.  (It does not touch the calibration state nor `zero`.)
`seq[0]` is in bounds for every configuration the program builds
(`reps_each ≥ 1`); the `getD` default is never reached there. -/
def resetSession (c : Cfg) (s : State) : State :=
  let p := (buildSeq c).getD 0 (Phase.DESCANSO, 0)
  { s with
    started := true
    start_cd_left := c.start_countdown
    speed := 0
    dist_signed_px := 0
    road_x := 0
    far_ofs := 0
    mid_ofs := 0
    idx := 0
    phase_name := p.1
    phase_left := p.2
    reps_done := 0
    session_done := false
    report_rows := []
    prev_angle_used := 0
    angle_state := AngleState.neutral
    rep_ang_ext := none
    rep_hit := false
    rep_t_to_target := none
    rep_t_elapsed := 0
    session_t0 := some s.now
    acc_abs_dist_m := 0
    acc_time_s := 0
    settle_ok_time := 0
    settle_total_time := 0 }

/-- The event dispatch of `main` (the `Eventos` block): SPACE starts when
not yet started, `R` and the report button restart only once the session
is done, `C` re-opens the host calibration window, `Z` is device-side
only. -/
def handleEvent (c : Cfg) (s : State) (e : Event) : State :=
  match e with
  | Event.space => if s.started = false then resetSession c s else s
  | Event.keyR => if s.session_done = true then resetSession c s else s
  | Event.clickRestart => if s.session_done = true then resetSession c s else s
  | Event.keyC => { s with calibrating := true, cal_t0 := s.now, cal_buf := [] }
  | Event.keyZ => s

/-- The shared tail of both phase-advance sites in `main`:
`idx += 1; if idx >= len(seq): session_done = True else: load seq[idx]`. -/
def advancePhase (c : Cfg) (s : State) : State :=
  let i := s.idx + 1
  if i ≥ (buildSeq c).length then { s with idx := i, session_done := true }
  else
    let p := (buildSeq c).getD i (Phase.DESCANSO, 0)
    { s with idx := i, phase_name := p.1, phase_left := p.2 }

/-- The repetition-end bookkeeping of `main` (executed when a `TRÁS` or
`FRENTE` phase runs out of time): clamp the extreme toward the phase
natural sign, append the row, count the repetition, clear the
per-repetition metrics. -/
def finalizeRep (s : State) : State :=
  let ext :=
    if s.phase_name = Phase.FRENTE then max 0 (s.rep_ang_ext.getD 0)
    else min 0 (s.rep_ang_ext.getD 0)
  { s with
    report_rows := s.report_rows ++ [{ dir := s.phase_name, ang_ext := ext, t_target := s.rep_t_to_target }]
    reps_done := s.reps_done + 1
    rep_ang_ext := none
    rep_hit := false
    rep_t_to_target := none
    rep_t_elapsed := 0 }

/-- The per-tick phase update of `main` (the running-session `else` branch
of the banner chain): the `TRANSIÇÃO` settle logic with its dual exit
condition, and the timed countdown of every other phase kind. -/
def phaseTick (c : Cfg) (s : State) (dt angle : ℚ) : State :=
  if s.phase_name = Phase.TRANSICAO then
    let total := s.settle_total_time + dt
    let ok := if |angle| ≤ c.settle_tol_deg then s.settle_ok_time + dt else 0
    let left := s.phase_left - dt
    if ok ≥ c.settle_time ∨ total ≥ c.settle_max then
      advancePhase c
        { s with settle_ok_time := 0, settle_total_time := 0, phase_left := left }
    else
      { s with settle_ok_time := ok, settle_total_time := total, phase_left := left }
  else
    let left := s.phase_left - dt
    if left ≤ 0 then
      let s1 :=
        if s.phase_name = Phase.TRAS ∨ s.phase_name = Phase.FRENTE then finalizeRep s else s
      advancePhase c { s1 with phase_left := left }
    else
      { s with phase_left := left }

/-- The per-repetition metrics update of `main` (the `Métricas por
repetição` block, already gated on an active `TRÁS`/`FRENTE` phase):
elapsed time, running extreme, first target crossing. -/
def metricsTick (c : Cfg) (s : State) (dt angle : ℚ) : State :=
  let e := s.rep_t_elapsed + dt
  let ext :=
    match s.rep_ang_ext with
    | none => angle
    | some x => if s.phase_name = Phase.FRENTE then max x angle else min x angle
  let s1 := { s with rep_t_elapsed := e, rep_ang_ext := some ext }
  if s.rep_hit = false ∧
      ((s.phase_name = Phase.FRENTE ∧ angle ≥ c.target_front) ∨
        (s.phase_name = Phase.TRAS ∧ angle ≤ c.target_back)) then
    { s1 with rep_hit := true, rep_t_to_target := some e }
  else s1

/-- The low-battery test of the banner chain of `main`:
`imu.battery_v is not None and imu.battery_v < 3.6`. -/
def lowBattery (b : Option ℚ) : Bool :=
  match b with
  | some v => decide (v < mkRat 18 5)
  | none => false

/-- The `Leitura & Calibração` block of `main`: while the host calibration
window is open, buffer the raw sample; once the window elapsed, set the zero
offset to the buffer mean and close the window. -/
def calStage (s : State) (raw : ℚ) : State :=
  if s.calibrating = true then
    let buf := s.cal_buf ++ [raw]
    if s.now - s.cal_t0 ≥ calTime then
      { s with cal_buf := buf, zero := buf.sum / ((max 1 buf.length : ℕ) : ℚ), calibrating := false }
    else { s with cal_buf := buf }
  else s

/-- The control-gate condition of `main` (the line
`(not started) or start_cd_left>0 or calibrating or session_done`). -/
def gateOff (s : State) : Prop :=
  s.started = false ∨ s.start_cd_left > 0 ∨ s.calibrating = true ∨ s.session_done = true

instance (s : State) : Decidable (gateOff s) := by
  unfold gateOff; infer_instance

/-- The calibrated control angle of a tick: forced to `0` while the gate is
off, `raw - zero` otherwise. -/
def gatedAngle (s : State) (raw : ℚ) : ℚ :=
  if gateOff s then 0 else raw - s.zero

/-- The `Estado por histerese` block of `main`: hysteresis update while
controllable, forced `neutral` otherwise. -/
def hystStage (c : Cfg) (s : State) (angle : ℚ) : State :=
  if gateOff s then { s with angle_state := AngleState.neutral }
  else { s with angle_state := hysteresisStep c s.angle_state angle }

/-- The `Banners & Fases` block of `main`: the banner `elif` chain.  Only
its countdown branch and its final (running-session) branch mutate state;
in particular a low battery reading short-circuits the chain before the
phase state machine. -/
def bannerPhaseStage (c : Cfg) (s : State) (battery : Option ℚ) (dt angle : ℚ) : State :=
  if s.calibrating = true then s
  else if lowBattery battery = true then s
  else if s.started = false then s
  else if s.start_cd_left > 0 then { s with start_cd_left := s.start_cd_left - dt }
  else if s.session_done = true then s
  else phaseTick c s dt angle

/-- The guard of the `Métricas por repetição` block of `main`. -/
def metricsOn (s : State) : Prop :=
  s.started = true ∧ s.start_cd_left ≤ 0 ∧ s.calibrating = false ∧ s.session_done = false ∧
    (s.phase_name = Phase.TRAS ∨ s.phase_name = Phase.FRENTE)

instance (s : State) : Decidable (metricsOn s) := by
  unfold metricsOn; infer_instance

/-- The `Métricas por repetição` block of `main`. -/
def metricsStage (c : Cfg) (s : State) (dt angle : ℚ) : State :=
  if metricsOn s then metricsTick c s dt angle else s

/-- The motion-disable condition of the `Física` block of `main`. -/
def motionOff (s : State) : Prop :=
  s.started = false ∨ s.start_cd_left > 0 ∨ s.calibrating = true ∨ s.session_done = true ∨
    s.phase_name = Phase.TRANSICAO

instance (s : State) : Decidable (motionOff s) := by
  unfold motionOff; infer_instance

/-- The guard of the distance/average-speed accumulation of the `Física`
block of `main`. -/
def moveOn (s : State) : Prop :=
  s.started = true ∧ s.start_cd_left ≤ 0 ∧ s.calibrating = false ∧ s.session_done = false ∧
    s.phase_name ≠ Phase.TRANSICAO

instance (s : State) : Decidable (moveOn s) := by
  unfold moveOn; infer_instance

/-- The speed computation of the `Física` block of `main`: acceleration
from throttle/reverse and drag, hard zeroing of both acceleration and
speed while motion is disabled, Euler integration and clamping. -/
noncomputable def physSpeed (c : Cfg) (s : State) (dt angle : ℚ) : ℝ :=
  let tr := map_thr_rev angle c
  let accel : ℝ :=
    (c.a_max : ℝ) * tr.1 - (c.a_rev_max : ℝ) * tr.2 - (c.drag : ℝ) * (s.speed / (c.v_max : ℝ))
  let accel : ℝ := if motionOff s then 0 else accel
  let sp0 : ℝ := if motionOff s then 0 else s.speed
  clamp (sp0 + accel * (dt : ℝ)) (-(c.v_rev_max : ℝ)) ((c.v_max : ℝ))

/-- The `Física` block of `main`: the speed update followed by the
distance/average-speed accumulators. -/
noncomputable def physStage (c : Cfg) (s : State) (dt angle : ℚ) : State :=
  let sp := physSpeed c s dt angle
  let s1 : State := { s with speed := sp }
  if moveOn s1 then
    { s1 with
      road_x := s1.road_x + sp * (dt : ℝ)
      mid_ofs := s1.mid_ofs + sp * (dt : ℝ)
      far_ofs := s1.far_ofs + sp * (dt : ℝ) * ((6 : ℝ)/10)
      dist_signed_px := s1.dist_signed_px + sp * (dt : ℝ)
      acc_abs_dist_m := s1.acc_abs_dist_m + |sp| * (dt : ℝ) / (c.px_per_m : ℝ)
      acc_time_s := s1.acc_time_s + dt }
  else s1

/-- One iteration of the `while running` loop of `main`, with the drawing
calls omitted (they never write core state).  Stages in source order:
advance wall time by the measured `dt`, process events, read the sensor and
run the calibration window, compute the gated control angle, hysteresis
classification, the banner `elif` chain (whose final branch holds the whole
phase/repetition state machine), per-repetition metrics, and physics. -/
noncomputable def tick (c : Cfg) (s0 : State) (inp : Input) : State :=
  let s1 : State := { s0 with now := s0.now + inp.dt }
  let s2 : State := inp.events.foldl (handleEvent c) s1
  let s3 : State := calStage s2 inp.raw
  let angle : ℚ := gatedAngle s3 inp.raw
  let s4 : State := { s3 with prev_angle_used := angle }
  let s5 : State := hystStage c s4 angle
  let s6 : State := bannerPhaseStage c s5 inp.battery inp.dt angle
  let s7 : State := metricsStage c s6 inp.dt angle
  physStage c s7 inp.dt angle

/-- Iterated loop interactions: fold `tick` over a list of inputs. -/
noncomputable def run (c : Cfg) (s : State) (l : List Input) : State :=
  l.foldl (tick c) s

/-! ## Helper lemmas -/

theorem mkRat_as_div (n : ℤ) (d : ℕ) : mkRat n d = (n : ℚ) / (d : ℚ) := by
  rw [Rat.mkRat_eq_divInt, Rat.divInt_eq_div]
  norm_num

theorem gamma_pos_val : cfg.gamma_pos = 9/10 := by
  show mkRat 9 10 = 9/10
  rw [mkRat_as_div]
  norm_num

theorem gamma_neg_val : cfg.gamma_neg = 9/10 := by
  show mkRat 9 10 = 9/10
  rw [mkRat_as_div]
  norm_num

theorem clamp01_nonneg (x : ℚ) : 0 ≤ clamp x 0 1 := le_max_left 0 (min 1 x)

theorem clamp01_le_one (x : ℚ) : clamp x 0 1 ≤ 1 :=
  max_le zero_le_one (min_le_left 1 x)

theorem gamma_cast_nonneg : (0 : ℝ) ≤ ((cfg.gamma_pos : ℚ) : ℝ) := by
  have h : (0 : ℚ) ≤ cfg.gamma_pos := by decide
  exact_mod_cast h

theorem rpow_clamp_mem_unit (x : ℚ) (g : ℚ) (hg : 0 ≤ g) :
    0 ≤ ((clamp x 0 1 : ℚ) : ℝ) ^ ((g : ℚ) : ℝ) ∧
      ((clamp x 0 1 : ℚ) : ℝ) ^ ((g : ℚ) : ℝ) ≤ 1 := by
  have h0 : (0 : ℝ) ≤ ((clamp x 0 1 : ℚ) : ℝ) := by
    exact_mod_cast clamp01_nonneg x
  have h1 : ((clamp x 0 1 : ℚ) : ℝ) ≤ 1 := by
    exact_mod_cast clamp01_le_one x
  have hg' : (0 : ℝ) ≤ ((g : ℚ) : ℝ) := by exact_mod_cast hg
  exact ⟨Real.rpow_nonneg h0 _, Real.rpow_le_one h0 h1 hg'⟩

/-! ## C9 — the generated phase sequence -/

/-- C9: the phase sequence is generated deterministically as the block
`[REP_BACK, TRANSITION, REP_FRONT, TRANSITION]` repeated `reps_each`
times, giving exactly `4 * reps_each` phases; for the program
configuration (`reps_each = 5`) this is exactly the 20-phase alternating
list, and no REST (`DESCANSO`) phase occurs in it. -/
theorem phase_sequence_structure :
    (∀ c : Cfg,
        buildSeq c = (List.replicate c.reps_each (phaseBlock c)).flatten ∧
        phaseBlock c = [(Phase.TRAS, c.rep_time), (Phase.TRANSICAO, c.settle_max),
          (Phase.FRENTE, c.rep_time), (Phase.TRANSICAO, c.settle_max)] ∧
        (buildSeq c).length = 4 * c.reps_each) ∧
    (buildSeq cfg).length = 20 ∧
    buildSeq cfg =
      [(Phase.TRAS, 10), (Phase.TRANSICAO, 6), (Phase.FRENTE, 10), (Phase.TRANSICAO, 6),
       (Phase.TRAS, 10), (Phase.TRANSICAO, 6), (Phase.FRENTE, 10), (Phase.TRANSICAO, 6),
       (Phase.TRAS, 10), (Phase.TRANSICAO, 6), (Phase.FRENTE, 10), (Phase.TRANSICAO, 6),
       (Phase.TRAS, 10), (Phase.TRANSICAO, 6), (Phase.FRENTE, 10), (Phase.TRANSICAO, 6),
       (Phase.TRAS, 10), (Phase.TRANSICAO, 6), (Phase.FRENTE, 10), (Phase.TRANSICAO, 6)] ∧
    Phase.DESCANSO ∉ (buildSeq cfg).map Prod.fst := by
  refine ⟨fun c => ⟨buildSeq_eq_flatten c, rfl, buildSeq_length c⟩, ?_, ?_, ?_⟩
  · decide
  · decide
  · decide

/-! ## C7 and C10 — the actuation mapper -/

/-- The actuation mapper exactly as worded by the spec (§4.3), for
comparison with the source function `map_thr_rev`: the deadzone-adjusted
effective angle is written `sign(angle) * (|angle| - deadzone)`. -/
noncomputable def mapSpecFn (angle : ℚ) (c : Cfg) : ℝ × ℝ :=
  if |angle| < c.deadzone_deg then (0, 0)
  else
    let sgn : ℚ := if angle < 0 then -1 else if 0 < angle then 1 else 0
    let a_eff := sgn * (|angle| - c.deadzone_deg)
    if a_eff > 0 then
      (((clamp (a_eff / c.angle_max_pl_deg) 0 1 : ℚ) : ℝ) ^ ((c.gamma_pos : ℚ) : ℝ), 0)
    else
      (0, ((clamp ((-a_eff) / c.angle_max_df_deg) 0 1 : ℚ) : ℝ) ^ ((c.gamma_neg : ℚ) : ℝ))

theorem copysign_eq_sign_mul (x a : ℚ) (hx : 0 ≤ x) (ha : a ≠ 0) :
    copysign x a = (if a < 0 then (-1 : ℚ) else if 0 < a then 1 else 0) * x := by
  rcases lt_trichotomy a 0 with h | h | h
  · simp [copysign, h, abs_of_nonneg hx]
  · exact absurd h ha
  · simp [copysign, not_lt.mpr h.le, h, abs_of_nonneg hx]

/-- C7: the actuation mapper is a pure function of angle and configuration
agreeing with the spec formula (deadzone, sign-adjusted effective angle,
per-direction normalization and power curve); both components lie in
`[0, 1]` and at most one of them is nonzero; `angle = 16` yields throttle
`((16-2)/30) ^ 0.9` (≈ 0.503) with zero reverse, and `angle = 1` (inside
the deadzone) yields `(0, 0)`. -/
theorem map_thr_rev_spec_conformance :
    (∀ a : ℚ, |a| < cfg.deadzone_deg → map_thr_rev a cfg = (0, 0)) ∧
    (∀ a : ℚ, 0 ≤ (map_thr_rev a cfg).1 ∧ (map_thr_rev a cfg).1 ≤ 1 ∧
      0 ≤ (map_thr_rev a cfg).2 ∧ (map_thr_rev a cfg).2 ≤ 1) ∧
    (∀ a : ℚ, (map_thr_rev a cfg).1 = 0 ∨ (map_thr_rev a cfg).2 = 0) ∧
    (∀ a : ℚ, map_thr_rev a cfg = mapSpecFn a cfg) ∧
    map_thr_rev 16 cfg = (((7 : ℝ)/15) ^ ((9 : ℝ)/10), 0) ∧
    map_thr_rev 1 cfg = (0, 0) := by
  have hg : (0 : ℚ) ≤ cfg.gamma_pos := by decide
  refine ⟨?_, ?_, ?_, ?_, ?_, ?_⟩
  · intro a h
    simp [map_thr_rev, h]
  · intro a
    by_cases h : |a| < cfg.deadzone_deg
    · simp [map_thr_rev, h]
    · by_cases h2 : copysign (|a| - cfg.deadzone_deg) a > 0
      · have := rpow_clamp_mem_unit (copysign (|a| - cfg.deadzone_deg) a / cfg.angle_max_pl_deg)
          cfg.gamma_pos hg
        simp only [map_thr_rev, if_neg h, if_pos h2]
        exact ⟨this.1, this.2, le_refl 0, zero_le_one⟩
      · have := rpow_clamp_mem_unit ((-(copysign (|a| - cfg.deadzone_deg) a)) / cfg.angle_max_df_deg)
          cfg.gamma_neg hg
        simp only [map_thr_rev, if_neg h, if_neg h2]
        exact ⟨le_refl 0, zero_le_one, this.1, this.2⟩
  · intro a
    by_cases h : |a| < cfg.deadzone_deg
    · left; simp [map_thr_rev, h]
    · by_cases h2 : copysign (|a| - cfg.deadzone_deg) a > 0
      · right; simp [map_thr_rev, h, h2]
      · left; simp [map_thr_rev, h, h2]
  · intro a
    by_cases h : |a| < cfg.deadzone_deg
    · simp [map_thr_rev, mapSpecFn, h]
    · have hdz : (0 : ℚ) < cfg.deadzone_deg := by norm_num [cfg]
      have ha : a ≠ 0 := by
        intro h0
        exact h (by simpa [h0] using hdz)
      have habs : 0 ≤ |a| - cfg.deadzone_deg := by
        have := not_lt.mp h
        linarith
      have hcs := copysign_eq_sign_mul (|a| - cfg.deadzone_deg) a habs ha
      simp only [map_thr_rev, mapSpecFn, if_neg h]
      rw [hcs]
  · have h1 : ¬ (|(16 : ℚ)| < cfg.deadzone_deg) := by decide
    have h2 : copysign (|(16 : ℚ)| - cfg.deadzone_deg) 16 > 0 := by
      have hdz : cfg.deadzone_deg = 2 := rfl
      rw [hdz]
      norm_num [copysign]
    have h3 : clamp (copysign (|(16 : ℚ)| - cfg.deadzone_deg) 16 / cfg.angle_max_pl_deg) 0 1 = 7/15 := by
      have hdz : cfg.deadzone_deg = 2 := rfl
      have hmx : cfg.angle_max_pl_deg = 30 := rfl
      rw [hdz, hmx]
      norm_num [copysign, clamp]
    simp only [map_thr_rev, if_neg h1, if_pos h2, h3, gamma_pos_val]
    norm_num
  · have h1 : |(1 : ℚ)| < cfg.deadzone_deg := by decide
    simp only [map_thr_rev]
    rw [if_pos h1]

/-- Witness for C7 at concrete inputs: `angle = 1` lies inside the deadzone
and is mapped to `(0, 0)`. -/
theorem map_thr_rev_spec_conformance_witness :
    |(1 : ℚ)| < cfg.deadzone_deg ∧ map_thr_rev 1 cfg = (0, 0) :=
  ⟨by decide, map_thr_rev_spec_conformance.1 1 (by decide)⟩

/-- C10: at the exact deadzone boundary (`|angle| = deadzone`, unspecified
by the strict `< deadzone` rule of the spec) the mapper returns `(0, 0)`: the
effective angle is `0`, the reverse branch is taken with normalized
magnitude `0`, and `0 ^ gamma = 0`. -/
theorem map_thr_rev_deadzone_boundary :
    ∀ a : ℚ, |a| = cfg.deadzone_deg →
      copysign (|a| - cfg.deadzone_deg) a = 0 ∧ map_thr_rev a cfg = (0, 0) := by
  intro a h
  have hcs : copysign (|a| - cfg.deadzone_deg) a = 0 := by
    simp [copysign, h]
  refine ⟨hcs, ?_⟩
  have h1 : ¬ (|a| < cfg.deadzone_deg) := by rw [h]; exact lt_irrefl _
  have h2 : ¬ (copysign (|a| - cfg.deadzone_deg) a > 0) := by rw [hcs]; exact lt_irrefl 0
  have h3 : clamp ((-(copysign (|a| - cfg.deadzone_deg) a)) / cfg.angle_max_df_deg) 0 1 = 0 := by
    rw [hcs]
    norm_num [clamp]
  have h4 : ((cfg.gamma_neg : ℚ) : ℝ) ≠ 0 := by
    have h5 : cfg.gamma_neg ≠ 0 := by decide
    exact_mod_cast h5
  simp only [map_thr_rev, if_neg h1, if_neg h2, h3]
  norm_num [Real.zero_rpow h4]

/-- Witness for C10 at the concrete boundary input `angle = 2`. -/
theorem map_thr_rev_deadzone_boundary_witness :
    |(2 : ℚ)| = cfg.deadzone_deg ∧ map_thr_rev 2 cfg = (0, 0) :=
  ⟨by decide, (map_thr_rev_deadzone_boundary 2 (by decide)).2⟩

/-! ## C8 — the hysteresis direction classifier -/

/-- C8: the direction classifier follows exactly the hysteresis
transitions `neutral->forward` at `angle ≥ E`, `neutral->reverse` at
`angle ≤ -E`, `forward->neutral` at `angle < X`, `reverse->neutral` at
`angle > -X`; inside the band the state is held, and `forward` and
`reverse` are never reached from one another directly.  For `E = 3`,
`X = 2` the sequence `[0, 2.5, 3.5, 2.5, 1.5]` yields
`[neutral, neutral, forward, forward, neutral]`. -/
theorem hysteresis_transition_rules :
    (∀ a : ℚ, a ≥ cfg.angle_enter_deg →
      hysteresisStep cfg AngleState.neutral a = AngleState.forward) ∧
    (∀ a : ℚ, a ≤ -cfg.angle_enter_deg →
      hysteresisStep cfg AngleState.neutral a = AngleState.reverse) ∧
    (∀ a : ℚ, -cfg.angle_enter_deg < a → a < cfg.angle_enter_deg →
      hysteresisStep cfg AngleState.neutral a = AngleState.neutral) ∧
    (∀ a : ℚ, a < cfg.angle_exit_deg →
      hysteresisStep cfg AngleState.forward a = AngleState.neutral) ∧
    (∀ a : ℚ, cfg.angle_exit_deg ≤ a →
      hysteresisStep cfg AngleState.forward a = AngleState.forward) ∧
    (∀ a : ℚ, -cfg.angle_exit_deg < a →
      hysteresisStep cfg AngleState.reverse a = AngleState.neutral) ∧
    (∀ a : ℚ, a ≤ -cfg.angle_exit_deg →
      hysteresisStep cfg AngleState.reverse a = AngleState.reverse) ∧
    (∀ a : ℚ, hysteresisStep cfg AngleState.forward a ≠ AngleState.reverse) ∧
    (∀ a : ℚ, hysteresisStep cfg AngleState.reverse a ≠ AngleState.forward) ∧
    (List.scanl (hysteresisStep cfg) AngleState.neutral
        [0, mkRat 5 2, mkRat 7 2, mkRat 5 2, mkRat 3 2]).tail =
      [AngleState.neutral, AngleState.neutral, AngleState.forward,
       AngleState.forward, AngleState.neutral] := by
  refine ⟨?_, ?_, ?_, ?_, ?_, ?_, ?_, ?_, ?_, by decide⟩
  · intro a h
    simp only [hysteresisStep]
    rw [if_pos h]
  · intro a h
    have h2 : ¬ (a ≥ cfg.angle_enter_deg) := by
      have he : cfg.angle_enter_deg = 3 := rfl
      rw [he] at h ⊢
      intro hc; linarith
    simp only [hysteresisStep]
    rw [if_neg h2, if_pos h]
  · intro a h1 h2
    have h3 : ¬ (a ≥ cfg.angle_enter_deg) := not_le.mpr h2
    have h4 : ¬ (a ≤ -cfg.angle_enter_deg) := not_le.mpr h1
    simp only [hysteresisStep]
    rw [if_neg h3, if_neg h4]
  · intro a h
    simp only [hysteresisStep]
    rw [if_pos h]
  · intro a h
    simp only [hysteresisStep]
    rw [if_neg (not_lt.mpr h)]
  · intro a h
    simp only [hysteresisStep]
    rw [if_pos h]
  · intro a h
    simp only [hysteresisStep]
    rw [if_neg (not_lt.mpr h)]
  · intro a
    simp only [hysteresisStep]
    split <;> simp
  · intro a
    simp only [hysteresisStep]
    split <;> simp

/-- Witness for C8 at a concrete input: from `neutral`, an angle of `4`
(at or above the enter threshold `3`) switches the classifier to
`forward`. -/
theorem hysteresis_transition_rules_witness :
    (4 : ℚ) ≥ cfg.angle_enter_deg ∧
      hysteresisStep cfg AngleState.neutral 4 = AngleState.forward :=
  ⟨by decide, hysteresis_transition_rules.1 4 (by decide)⟩

/-! ## C6 — the kinematic speed clamp -/

theorem clamp_bounds {x lo hi : ℝ} (h : lo ≤ hi) :
    lo ≤ clamp x lo hi ∧ clamp x lo hi ≤ hi :=
  ⟨le_max_left lo (min hi x), max_le h (min_le_left hi x)⟩

theorem physStage_speed (c : Cfg) (s : State) (dt angle : ℚ) :
    (physStage c s dt angle).speed = physSpeed c s dt angle := by
  simp only [physStage]
  split <;> rfl

theorem physSpeed_bounds (c : Cfg) (s : State) (dt angle : ℚ)
    (h : -(c.v_rev_max : ℝ) ≤ (c.v_max : ℝ)) :
    -(c.v_rev_max : ℝ) ≤ physSpeed c s dt angle ∧
      physSpeed c s dt angle ≤ (c.v_max : ℝ) := by
  simp only [physSpeed]
  exact clamp_bounds h

/-- C6: after every tick, whatever the state, inputs and commands, the
vehicle speed lies in the closed interval `[-v_rev_max, v_max]`; hence no
sequence of accelerations (throttle, reverse, drag or disable-reset) can
drive it outside that interval. -/
theorem speed_always_clamped :
    ∀ (s : State) (inp : Input),
      -(cfg.v_rev_max : ℝ) ≤ (tick cfg s inp).speed ∧
        (tick cfg s inp).speed ≤ (cfg.v_max : ℝ) := by
  intro s inp
  have h : (-(cfg.v_rev_max : ℝ)) ≤ (cfg.v_max : ℝ) := by norm_num [cfg]
  simp only [tick]
  rw [physStage_speed]
  exact physSpeed_bounds cfg _ inp.dt _ h



/-! ## Stage projection lemmas: the physics stage never writes the
session/metrics fields, and the metrics stage never writes the
phase/report fields. -/

theorem physStage_settle_ok_time (c : Cfg) (s : State) (dt angle : ℚ) :
    (physStage c s dt angle).settle_ok_time = s.settle_ok_time := by
  simp only [physStage]
  split <;> rfl

theorem physStage_settle_total_time (c : Cfg) (s : State) (dt angle : ℚ) :
    (physStage c s dt angle).settle_total_time = s.settle_total_time := by
  simp only [physStage]
  split <;> rfl

theorem physStage_idx (c : Cfg) (s : State) (dt angle : ℚ) :
    (physStage c s dt angle).idx = s.idx := by
  simp only [physStage]
  split <;> rfl

theorem physStage_phase_name (c : Cfg) (s : State) (dt angle : ℚ) :
    (physStage c s dt angle).phase_name = s.phase_name := by
  simp only [physStage]
  split <;> rfl

theorem physStage_phase_left (c : Cfg) (s : State) (dt angle : ℚ) :
    (physStage c s dt angle).phase_left = s.phase_left := by
  simp only [physStage]
  split <;> rfl

theorem physStage_session_done (c : Cfg) (s : State) (dt angle : ℚ) :
    (physStage c s dt angle).session_done = s.session_done := by
  simp only [physStage]
  split <;> rfl

theorem physStage_report_rows (c : Cfg) (s : State) (dt angle : ℚ) :
    (physStage c s dt angle).report_rows = s.report_rows := by
  simp only [physStage]
  split <;> rfl

theorem physStage_reps_done (c : Cfg) (s : State) (dt angle : ℚ) :
    (physStage c s dt angle).reps_done = s.reps_done := by
  simp only [physStage]
  split <;> rfl

theorem physStage_rep_hit (c : Cfg) (s : State) (dt angle : ℚ) :
    (physStage c s dt angle).rep_hit = s.rep_hit := by
  simp only [physStage]
  split <;> rfl

theorem physStage_rep_ang_ext (c : Cfg) (s : State) (dt angle : ℚ) :
    (physStage c s dt angle).rep_ang_ext = s.rep_ang_ext := by
  simp only [physStage]
  split <;> rfl

theorem physStage_rep_t_to_target (c : Cfg) (s : State) (dt angle : ℚ) :
    (physStage c s dt angle).rep_t_to_target = s.rep_t_to_target := by
  simp only [physStage]
  split <;> rfl

theorem physStage_rep_t_elapsed (c : Cfg) (s : State) (dt angle : ℚ) :
    (physStage c s dt angle).rep_t_elapsed = s.rep_t_elapsed := by
  simp only [physStage]
  split <;> rfl

theorem physStage_started (c : Cfg) (s : State) (dt angle : ℚ) :
    (physStage c s dt angle).started = s.started := by
  simp only [physStage]
  split <;> rfl

theorem physStage_start_cd_left (c : Cfg) (s : State) (dt angle : ℚ) :
    (physStage c s dt angle).start_cd_left = s.start_cd_left := by
  simp only [physStage]
  split <;> rfl

theorem physStage_calibrating (c : Cfg) (s : State) (dt angle : ℚ) :
    (physStage c s dt angle).calibrating = s.calibrating := by
  simp only [physStage]
  split <;> rfl

theorem metricsStage_settle_ok_time (c : Cfg) (s : State) (dt angle : ℚ) :
    (metricsStage c s dt angle).settle_ok_time = s.settle_ok_time := by
  simp only [metricsStage, metricsTick]
  split <;> first
  | rfl
  | (split <;> rfl)

theorem metricsStage_settle_total_time (c : Cfg) (s : State) (dt angle : ℚ) :
    (metricsStage c s dt angle).settle_total_time = s.settle_total_time := by
  simp only [metricsStage, metricsTick]
  split <;> first
  | rfl
  | (split <;> rfl)

theorem metricsStage_idx (c : Cfg) (s : State) (dt angle : ℚ) :
    (metricsStage c s dt angle).idx = s.idx := by
  simp only [metricsStage, metricsTick]
  split <;> first
  | rfl
  | (split <;> rfl)

theorem metricsStage_phase_name (c : Cfg) (s : State) (dt angle : ℚ) :
    (metricsStage c s dt angle).phase_name = s.phase_name := by
  simp only [metricsStage, metricsTick]
  split <;> first
  | rfl
  | (split <;> rfl)

theorem metricsStage_phase_left (c : Cfg) (s : State) (dt angle : ℚ) :
    (metricsStage c s dt angle).phase_left = s.phase_left := by
  simp only [metricsStage, metricsTick]
  split <;> first
  | rfl
  | (split <;> rfl)

theorem metricsStage_session_done (c : Cfg) (s : State) (dt angle : ℚ) :
    (metricsStage c s dt angle).session_done = s.session_done := by
  simp only [metricsStage, metricsTick]
  split <;> first
  | rfl
  | (split <;> rfl)

theorem metricsStage_report_rows (c : Cfg) (s : State) (dt angle : ℚ) :
    (metricsStage c s dt angle).report_rows = s.report_rows := by
  simp only [metricsStage, metricsTick]
  split <;> first
  | rfl
  | (split <;> rfl)

theorem metricsStage_reps_done (c : Cfg) (s : State) (dt angle : ℚ) :
    (metricsStage c s dt angle).reps_done = s.reps_done := by
  simp only [metricsStage, metricsTick]
  split <;> first
  | rfl
  | (split <;> rfl)

theorem metricsStage_started (c : Cfg) (s : State) (dt angle : ℚ) :
    (metricsStage c s dt angle).started = s.started := by
  simp only [metricsStage, metricsTick]
  split <;> first
  | rfl
  | (split <;> rfl)

theorem metricsStage_start_cd_left (c : Cfg) (s : State) (dt angle : ℚ) :
    (metricsStage c s dt angle).start_cd_left = s.start_cd_left := by
  simp only [metricsStage, metricsTick]
  split <;> first
  | rfl
  | (split <;> rfl)

theorem metricsStage_calibrating (c : Cfg) (s : State) (dt angle : ℚ) :
    (metricsStage c s dt angle).calibrating = s.calibrating := by
  simp only [metricsStage, metricsTick]
  split <;> first
  | rfl
  | (split <;> rfl)


/-- Under an active running tick (no events, not calibrating, started,
countdown over, not done, battery not low) the loop body reduces to the
phase state machine followed by the metrics and physics stages, with the
control angle `raw - zero`. -/
theorem tick_active (s : State) (inp : Input)
    (h_ev : inp.events = []) (h_cal : s.calibrating = false)
    (h_started : s.started = true) (h_cd : s.start_cd_left ≤ 0)
    (h_done : s.session_done = false) (h_bat : lowBattery inp.battery = false) :
    tick cfg s inp =
      physStage cfg
        (metricsStage cfg
          (phaseTick cfg
            { s with
              now := s.now + inp.dt
              prev_angle_used := inp.raw - s.zero
              angle_state := hysteresisStep cfg s.angle_state (inp.raw - s.zero) }
            inp.dt (inp.raw - s.zero))
          inp.dt (inp.raw - s.zero))
        inp.dt (inp.raw - s.zero) := by
  have h_cd2 : ¬ (s.start_cd_left > 0) := not_lt.mpr h_cd
  simp only [tick, h_ev, List.foldl_nil, calStage, gatedAngle, gateOff, hystStage,
    bannerPhaseStage, h_cal, h_started, h_done, h_bat, h_cd2, Bool.false_eq_true,
    Bool.true_eq_false, or_self, or_false, false_or, if_false, if_true, ite_false,
    ite_true, not_false_eq_true, decide_True, decide_False]


/-! ## Characterizations of the phase-machine pieces -/

theorem advancePhase_report_rows (c : Cfg) (s : State) :
    (advancePhase c s).report_rows = s.report_rows := by
  simp only [advancePhase]
  split <;> rfl

theorem advancePhase_reps_done (c : Cfg) (s : State) :
    (advancePhase c s).reps_done = s.reps_done := by
  simp only [advancePhase]
  split <;> rfl

theorem advancePhase_settle_ok_time (c : Cfg) (s : State) :
    (advancePhase c s).settle_ok_time = s.settle_ok_time := by
  simp only [advancePhase]
  split <;> rfl

theorem advancePhase_settle_total_time (c : Cfg) (s : State) :
    (advancePhase c s).settle_total_time = s.settle_total_time := by
  simp only [advancePhase]
  split <;> rfl

theorem advancePhase_rep_hit (c : Cfg) (s : State) :
    (advancePhase c s).rep_hit = s.rep_hit := by
  simp only [advancePhase]
  split <;> rfl

theorem advancePhase_rep_ang_ext (c : Cfg) (s : State) :
    (advancePhase c s).rep_ang_ext = s.rep_ang_ext := by
  simp only [advancePhase]
  split <;> rfl

theorem advancePhase_rep_t_to_target (c : Cfg) (s : State) :
    (advancePhase c s).rep_t_to_target = s.rep_t_to_target := by
  simp only [advancePhase]
  split <;> rfl

theorem advancePhase_rep_t_elapsed (c : Cfg) (s : State) :
    (advancePhase c s).rep_t_elapsed = s.rep_t_elapsed := by
  simp only [advancePhase]
  split <;> rfl

theorem advancePhase_started (c : Cfg) (s : State) :
    (advancePhase c s).started = s.started := by
  simp only [advancePhase]
  split <;> rfl

theorem advancePhase_start_cd_left (c : Cfg) (s : State) :
    (advancePhase c s).start_cd_left = s.start_cd_left := by
  simp only [advancePhase]
  split <;> rfl

theorem advancePhase_calibrating (c : Cfg) (s : State) :
    (advancePhase c s).calibrating = s.calibrating := by
  simp only [advancePhase]
  split <;> rfl

theorem advancePhase_idx (c : Cfg) (s : State) :
    (advancePhase c s).idx = s.idx + 1 := by
  simp only [advancePhase]
  split <;> rfl

theorem advancePhase_done_of_ge (c : Cfg) (s : State)
    (h : s.idx + 1 ≥ (buildSeq c).length) :
    (advancePhase c s).session_done = true := by
  simp only [advancePhase]
  rw [if_pos h]

theorem advancePhase_of_lt (c : Cfg) (s : State)
    (h : s.idx + 1 < (buildSeq c).length) :
    (advancePhase c s).session_done = s.session_done ∧
    (advancePhase c s).phase_name = ((buildSeq c).getD (s.idx + 1) (Phase.DESCANSO, 0)).1 ∧
    (advancePhase c s).phase_left = ((buildSeq c).getD (s.idx + 1) (Phase.DESCANSO, 0)).2 := by
  simp only [advancePhase]
  rw [if_neg (not_le.mpr h)]
  exact ⟨rfl, rfl, rfl⟩

theorem finalizeRep_idx (s : State) :
    (finalizeRep s).idx = s.idx := rfl

theorem finalizeRep_phase_name (s : State) :
    (finalizeRep s).phase_name = s.phase_name := rfl

theorem finalizeRep_phase_left (s : State) :
    (finalizeRep s).phase_left = s.phase_left := rfl

theorem finalizeRep_session_done (s : State) :
    (finalizeRep s).session_done = s.session_done := rfl

theorem finalizeRep_settle_ok_time (s : State) :
    (finalizeRep s).settle_ok_time = s.settle_ok_time := rfl

theorem finalizeRep_settle_total_time (s : State) :
    (finalizeRep s).settle_total_time = s.settle_total_time := rfl

theorem finalizeRep_started (s : State) :
    (finalizeRep s).started = s.started := rfl

theorem finalizeRep_start_cd_left (s : State) :
    (finalizeRep s).start_cd_left = s.start_cd_left := rfl

theorem finalizeRep_calibrating (s : State) :
    (finalizeRep s).calibrating = s.calibrating := rfl

theorem finalizeRep_report_rows (s : State) :
    (finalizeRep s).report_rows = s.report_rows ++
      [{ dir := s.phase_name
         ang_ext := if s.phase_name = Phase.FRENTE then max 0 (s.rep_ang_ext.getD 0)
           else min 0 (s.rep_ang_ext.getD 0)
         t_target := s.rep_t_to_target }] := rfl

theorem finalizeRep_reps_done (s : State) :
    (finalizeRep s).reps_done = s.reps_done + 1 := rfl

theorem phaseTick_transition (c : Cfg) (s : State) (dt angle : ℚ)
    (h : s.phase_name = Phase.TRANSICAO) :
    phaseTick c s dt angle =
      if (if |angle| ≤ c.settle_tol_deg then s.settle_ok_time + dt else 0) ≥ c.settle_time ∨
          s.settle_total_time + dt ≥ c.settle_max then
        advancePhase c
          { s with settle_ok_time := 0, settle_total_time := 0,
                   phase_left := s.phase_left - dt }
      else
        { s with settle_ok_time := (if |angle| ≤ c.settle_tol_deg then s.settle_ok_time + dt else 0),
                 settle_total_time := s.settle_total_time + dt,
                 phase_left := s.phase_left - dt } := by
  simp only [phaseTick, h, if_pos]

theorem phaseTick_rep (c : Cfg) (s : State) (dt angle : ℚ)
    (h : s.phase_name = Phase.TRAS ∨ s.phase_name = Phase.FRENTE) :
    phaseTick c s dt angle =
      if s.phase_left - dt ≤ 0 then
        advancePhase c { (finalizeRep s) with phase_left := s.phase_left - dt }
      else
        { s with phase_left := s.phase_left - dt } := by
  have hne : ¬ (s.phase_name = Phase.TRANSICAO) := by
    rcases h with h | h <;> simp [h]
  simp only [phaseTick, if_neg hne, if_pos h]

theorem phaseTick_other (c : Cfg) (s : State) (dt angle : ℚ)
    (hne : ¬ s.phase_name = Phase.TRANSICAO)
    (hnr : ¬ (s.phase_name = Phase.TRAS ∨ s.phase_name = Phase.FRENTE)) :
    phaseTick c s dt angle =
      if s.phase_left - dt ≤ 0 then
        advancePhase c { s with phase_left := s.phase_left - dt }
      else
        { s with phase_left := s.phase_left - dt } := by
  simp only [phaseTick, if_neg hne, if_neg hnr]


/-! ## More stage projection lemmas -/

theorem hystStage_calibrating (c : Cfg) (s : State) (a : ℚ) :
    (hystStage c s a).calibrating = s.calibrating := by
  simp only [hystStage]
  split <;> rfl

theorem hystStage_started (c : Cfg) (s : State) (a : ℚ) :
    (hystStage c s a).started = s.started := by
  simp only [hystStage]
  split <;> rfl

theorem hystStage_start_cd_left (c : Cfg) (s : State) (a : ℚ) :
    (hystStage c s a).start_cd_left = s.start_cd_left := by
  simp only [hystStage]
  split <;> rfl

theorem hystStage_session_done (c : Cfg) (s : State) (a : ℚ) :
    (hystStage c s a).session_done = s.session_done := by
  simp only [hystStage]
  split <;> rfl

theorem hystStage_phase_name (c : Cfg) (s : State) (a : ℚ) :
    (hystStage c s a).phase_name = s.phase_name := by
  simp only [hystStage]
  split <;> rfl

theorem hystStage_phase_left (c : Cfg) (s : State) (a : ℚ) :
    (hystStage c s a).phase_left = s.phase_left := by
  simp only [hystStage]
  split <;> rfl

theorem hystStage_report_rows (c : Cfg) (s : State) (a : ℚ) :
    (hystStage c s a).report_rows = s.report_rows := by
  simp only [hystStage]
  split <;> rfl

theorem hystStage_idx (c : Cfg) (s : State) (a : ℚ) :
    (hystStage c s a).idx = s.idx := by
  simp only [hystStage]
  split <;> rfl

theorem hystStage_reps_done (c : Cfg) (s : State) (a : ℚ) :
    (hystStage c s a).reps_done = s.reps_done := by
  simp only [hystStage]
  split <;> rfl

theorem hystStage_settle_ok_time (c : Cfg) (s : State) (a : ℚ) :
    (hystStage c s a).settle_ok_time = s.settle_ok_time := by
  simp only [hystStage]
  split <;> rfl

theorem hystStage_settle_total_time (c : Cfg) (s : State) (a : ℚ) :
    (hystStage c s a).settle_total_time = s.settle_total_time := by
  simp only [hystStage]
  split <;> rfl

theorem hystStage_rep_hit (c : Cfg) (s : State) (a : ℚ) :
    (hystStage c s a).rep_hit = s.rep_hit := by
  simp only [hystStage]
  split <;> rfl

theorem hystStage_rep_ang_ext (c : Cfg) (s : State) (a : ℚ) :
    (hystStage c s a).rep_ang_ext = s.rep_ang_ext := by
  simp only [hystStage]
  split <;> rfl

theorem hystStage_rep_t_to_target (c : Cfg) (s : State) (a : ℚ) :
    (hystStage c s a).rep_t_to_target = s.rep_t_to_target := by
  simp only [hystStage]
  split <;> rfl

theorem hystStage_rep_t_elapsed (c : Cfg) (s : State) (a : ℚ) :
    (hystStage c s a).rep_t_elapsed = s.rep_t_elapsed := by
  simp only [hystStage]
  split <;> rfl

theorem hystStage_now (c : Cfg) (s : State) (a : ℚ) :
    (hystStage c s a).now = s.now := by
  simp only [hystStage]
  split <;> rfl

theorem hystStage_cal_t0 (c : Cfg) (s : State) (a : ℚ) :
    (hystStage c s a).cal_t0 = s.cal_t0 := by
  simp only [hystStage]
  split <;> rfl

theorem hystStage_zero (c : Cfg) (s : State) (a : ℚ) :
    (hystStage c s a).zero = s.zero := by
  simp only [hystStage]
  split <;> rfl

theorem calStage_started (s : State) (raw : ℚ) :
    (calStage s raw).started = s.started := by
  simp only [calStage]
  split <;> first
  | rfl
  | (split <;> rfl)

theorem calStage_start_cd_left (s : State) (raw : ℚ) :
    (calStage s raw).start_cd_left = s.start_cd_left := by
  simp only [calStage]
  split <;> first
  | rfl
  | (split <;> rfl)

theorem calStage_session_done (s : State) (raw : ℚ) :
    (calStage s raw).session_done = s.session_done := by
  simp only [calStage]
  split <;> first
  | rfl
  | (split <;> rfl)

theorem calStage_phase_name (s : State) (raw : ℚ) :
    (calStage s raw).phase_name = s.phase_name := by
  simp only [calStage]
  split <;> first
  | rfl
  | (split <;> rfl)

theorem calStage_phase_left (s : State) (raw : ℚ) :
    (calStage s raw).phase_left = s.phase_left := by
  simp only [calStage]
  split <;> first
  | rfl
  | (split <;> rfl)

theorem calStage_report_rows (s : State) (raw : ℚ) :
    (calStage s raw).report_rows = s.report_rows := by
  simp only [calStage]
  split <;> first
  | rfl
  | (split <;> rfl)

theorem calStage_idx (s : State) (raw : ℚ) :
    (calStage s raw).idx = s.idx := by
  simp only [calStage]
  split <;> first
  | rfl
  | (split <;> rfl)

theorem calStage_reps_done (s : State) (raw : ℚ) :
    (calStage s raw).reps_done = s.reps_done := by
  simp only [calStage]
  split <;> first
  | rfl
  | (split <;> rfl)

theorem calStage_settle_ok_time (s : State) (raw : ℚ) :
    (calStage s raw).settle_ok_time = s.settle_ok_time := by
  simp only [calStage]
  split <;> first
  | rfl
  | (split <;> rfl)

theorem calStage_settle_total_time (s : State) (raw : ℚ) :
    (calStage s raw).settle_total_time = s.settle_total_time := by
  simp only [calStage]
  split <;> first
  | rfl
  | (split <;> rfl)

theorem calStage_rep_hit (s : State) (raw : ℚ) :
    (calStage s raw).rep_hit = s.rep_hit := by
  simp only [calStage]
  split <;> first
  | rfl
  | (split <;> rfl)

theorem calStage_rep_ang_ext (s : State) (raw : ℚ) :
    (calStage s raw).rep_ang_ext = s.rep_ang_ext := by
  simp only [calStage]
  split <;> first
  | rfl
  | (split <;> rfl)

theorem calStage_rep_t_to_target (s : State) (raw : ℚ) :
    (calStage s raw).rep_t_to_target = s.rep_t_to_target := by
  simp only [calStage]
  split <;> first
  | rfl
  | (split <;> rfl)

theorem calStage_rep_t_elapsed (s : State) (raw : ℚ) :
    (calStage s raw).rep_t_elapsed = s.rep_t_elapsed := by
  simp only [calStage]
  split <;> first
  | rfl
  | (split <;> rfl)


/-! ## Branch lemmas for the banner chain -/

theorem bannerPhaseStage_cal (c : Cfg) (s : State) (b : Option ℚ) (dt angle : ℚ)
    (h : s.calibrating = true) :
    bannerPhaseStage c s b dt angle = s := by
  simp only [bannerPhaseStage, h, if_true]

theorem bannerPhaseStage_lowbat (c : Cfg) (s : State) (b : Option ℚ) (dt angle : ℚ)
    (h1 : s.calibrating = false) (h2 : lowBattery b = true) :
    bannerPhaseStage c s b dt angle = s := by
  simp only [bannerPhaseStage, h1, h2, Bool.false_eq_true, if_false, if_true]

theorem bannerPhaseStage_notstarted (c : Cfg) (s : State) (b : Option ℚ) (dt angle : ℚ)
    (h1 : s.calibrating = false) (h2 : lowBattery b = false) (h3 : s.started = false) :
    bannerPhaseStage c s b dt angle = s := by
  simp only [bannerPhaseStage, h1, h2, h3, Bool.false_eq_true, if_false, if_true]

theorem bannerPhaseStage_countdown (c : Cfg) (s : State) (b : Option ℚ) (dt angle : ℚ)
    (h1 : s.calibrating = false) (h2 : lowBattery b = false) (h3 : s.started = true)
    (h4 : s.start_cd_left > 0) :
    bannerPhaseStage c s b dt angle = { s with start_cd_left := s.start_cd_left - dt } := by
  simp only [bannerPhaseStage, h1, h2, h3, Bool.false_eq_true, Bool.true_eq_false,
    if_false, if_pos h4]

theorem bannerPhaseStage_done (c : Cfg) (s : State) (b : Option ℚ) (dt angle : ℚ)
    (h1 : s.calibrating = false) (h2 : lowBattery b = false) (h3 : s.started = true)
    (h4 : ¬ s.start_cd_left > 0) (h5 : s.session_done = true) :
    bannerPhaseStage c s b dt angle = s := by
  simp only [bannerPhaseStage, h1, h2, h3, h5, Bool.false_eq_true, Bool.true_eq_false,
    if_false, if_neg h4, if_true]

theorem bannerPhaseStage_run (c : Cfg) (s : State) (b : Option ℚ) (dt angle : ℚ)
    (h1 : s.calibrating = false) (h2 : lowBattery b = false) (h3 : s.started = true)
    (h4 : ¬ s.start_cd_left > 0) (h5 : s.session_done = false) :
    bannerPhaseStage c s b dt angle = phaseTick c s dt angle := by
  simp only [bannerPhaseStage, h1, h2, h3, h5, Bool.false_eq_true, Bool.true_eq_false,
    if_false, if_neg h4]

/-- A tick of the phase machine that does not end an active `TRÁS`/`FRENTE`
phase leaves the report untouched. -/
theorem phaseTick_report_unchanged (c : Cfg) (s : State) (dt angle : ℚ)
    (h : ¬ ((s.phase_name = Phase.TRAS ∨ s.phase_name = Phase.FRENTE) ∧
      s.phase_left - dt ≤ 0)) :
    (phaseTick c s dt angle).report_rows = s.report_rows := by
  by_cases ht : s.phase_name = Phase.TRANSICAO
  · rw [phaseTick_transition c s dt angle ht]
    by_cases hc : (if |angle| ≤ c.settle_tol_deg then s.settle_ok_time + dt else 0) ≥
        c.settle_time ∨ s.settle_total_time + dt ≥ c.settle_max
    · rw [if_pos hc, advancePhase_report_rows]
    · rw [if_neg hc]
  · by_cases hr : s.phase_name = Phase.TRAS ∨ s.phase_name = Phase.FRENTE
    · rw [phaseTick_rep c s dt angle hr]
      have hl : ¬ (s.phase_left - dt ≤ 0) := fun hl => h ⟨hr, hl⟩
      rw [if_neg hl]
    · rw [phaseTick_other c s dt angle ht hr]
      by_cases hc : s.phase_left - dt ≤ 0
      · rw [if_pos hc, advancePhase_report_rows]
      · rw [if_neg hc]

/-- With no events and no open calibration window, the loop body reduces
to the banner chain followed by the metrics and physics stages. -/
theorem tick_nocal (s : State) (inp : Input)
    (h_ev : inp.events = []) (h_cal : s.calibrating = false) :
    tick cfg s inp =
      physStage cfg
        (metricsStage cfg
          (bannerPhaseStage cfg
            (hystStage cfg
              { s with
                now := s.now + inp.dt
                prev_angle_used := gatedAngle { s with now := s.now + inp.dt } inp.raw }
              (gatedAngle { s with now := s.now + inp.dt } inp.raw))
            inp.battery inp.dt (gatedAngle { s with now := s.now + inp.dt } inp.raw))
          inp.dt (gatedAngle { s with now := s.now + inp.dt } inp.raw))
        inp.dt (gatedAngle { s with now := s.now + inp.dt } inp.raw) := by
  simp only [tick, h_ev, List.foldl_nil, calStage, h_cal, Bool.false_eq_true, if_false,
    ite_false]

/-! ## Concrete states for the session-machine claims -/

/-- A quiescent core state: program freshly past its initialisation, not
started, calibration already finished with zero offset `0`. -/
def baseState : State :=
  { now := 0
    zero := 0
    calibrating := false
    cal_t0 := 0
    cal_buf := []
    started := false
    start_cd_left := 0
    session_done := false
    speed := 0
    dist_signed_px := 0
    road_x := 0
    far_ofs := 0
    mid_ofs := 0
    idx := 0
    phase_name := Phase.TRAS
    phase_left := 10
    reps_done := 0
    session_t0 := none
    prev_angle_used := 0
    angle_state := AngleState.neutral
    rep_ang_ext := none
    rep_hit := false
    rep_t_to_target := none
    rep_t_elapsed := 0
    report_rows := []
    settle_ok_time := 0
    settle_total_time := 0
    acc_abs_dist_m := 0
    acc_time_s := 0 }

/-- A state in the middle of a RUNNING session (countdown over, third
phase active, one repetition already recorded). -/
def midRunState : State :=
  { baseState with
    started := true
    idx := 2
    phase_name := Phase.FRENTE
    phase_left := 5
    reps_done := 1
    report_rows := [{ dir := Phase.TRAS, ang_ext := 0, t_target := none }] }

/-- A COMPLETE state (session done, full report of one row for brevity). -/
def doneState : State :=
  { baseState with
    started := true
    session_done := true
    idx := 20
    reps_done := 10
    report_rows := [{ dir := Phase.TRAS, ang_ext := 0, t_target := none }] }

/-! ## C1 — restart semantics -/

/-- C1 counterexample: in the middle of a RUNNING session (state
`midRunState`, countdown over, phase index 2, nonempty report) the restart
command `R` is ignored — the state is returned unchanged, so the report is
not cleared, the phase index is not reset, and COUNTDOWN is not
re-entered, contradicting the claim that a restart from any state
performs a full reset. -/
theorem restart_midrun_ignored :
    handleEvent cfg midRunState Event.keyR = midRunState ∧
    (handleEvent cfg midRunState Event.keyR).idx = 2 ∧
    (handleEvent cfg midRunState Event.keyR).report_rows ≠ [] ∧
    ¬ ((handleEvent cfg midRunState Event.keyR).start_cd_left > 0) := by
  refine ⟨rfl, rfl, ?_, ?_⟩
  · decide
  · decide

/-- C1 (amended): the restart command (`R` key or report button) performs
the full reset exactly when the session is COMPLETE (`session_done`); the
start command (SPACE) performs the same reset exactly when the session has
not been started; in a started, unfinished session all three are ignored.
When it runs, `reset_session` clears the report, the phase index, every
timer and accumulator (countdown, phase remaining time, settle
accumulators, repetition metrics, distance and average-speed
accumulators, speed) and re-enters COUNTDOWN (`started` with a positive
countdown, first phase reloaded). -/
theorem restart_full_reset :
    (∀ s : State, s.session_done = true →
      handleEvent cfg s Event.keyR = resetSession cfg s) ∧
    (∀ s : State, s.session_done = true →
      handleEvent cfg s Event.clickRestart = resetSession cfg s) ∧
    (∀ s : State, s.started = false →
      handleEvent cfg s Event.space = resetSession cfg s) ∧
    (∀ s : State, s.started = true → s.session_done = false →
      handleEvent cfg s Event.keyR = s ∧ handleEvent cfg s Event.space = s ∧
        handleEvent cfg s Event.clickRestart = s) ∧
    (∀ s : State,
      (resetSession cfg s).report_rows = [] ∧
      (resetSession cfg s).idx = 0 ∧
      (resetSession cfg s).started = true ∧
      (resetSession cfg s).session_done = false ∧
      (resetSession cfg s).start_cd_left = cfg.start_countdown ∧
      0 < (resetSession cfg s).start_cd_left ∧
      (resetSession cfg s).phase_name = Phase.TRAS ∧
      (resetSession cfg s).phase_left = cfg.rep_time ∧
      (resetSession cfg s).reps_done = 0 ∧
      (resetSession cfg s).settle_ok_time = 0 ∧
      (resetSession cfg s).settle_total_time = 0 ∧
      (resetSession cfg s).rep_ang_ext = none ∧
      (resetSession cfg s).rep_hit = false ∧
      (resetSession cfg s).rep_t_to_target = none ∧
      (resetSession cfg s).rep_t_elapsed = 0 ∧
      (resetSession cfg s).speed = 0 ∧
      (resetSession cfg s).dist_signed_px = 0 ∧
      (resetSession cfg s).acc_abs_dist_m = 0 ∧
      (resetSession cfg s).acc_time_s = 0 ∧
      (resetSession cfg s).prev_angle_used = 0 ∧
      (resetSession cfg s).angle_state = AngleState.neutral) := by
  refine ⟨?_, ?_, ?_, ?_, ?_⟩
  · intro s h
    simp only [handleEvent]
    rw [if_pos h]
  · intro s h
    simp only [handleEvent]
    rw [if_pos h]
  · intro s h
    simp only [handleEvent]
    rw [if_pos h]
  · intro s h1 h2
    refine ⟨?_, ?_, ?_⟩ <;> simp only [handleEvent] <;> rw [if_neg (by simp [h1, h2])]
  · intro s
    refine ⟨rfl, rfl, rfl, rfl, rfl, ?_, rfl, rfl, rfl, rfl, rfl, rfl, rfl,
      rfl, rfl, rfl, rfl, rfl, rfl, rfl, rfl⟩
    show (0 : ℚ) < cfg.start_countdown
    decide

/-- Witness for C1 (amended) at the concrete COMPLETE state `doneState`
and the concrete unfinished state `midRunState`. -/
theorem restart_full_reset_witness :
    doneState.session_done = true ∧
    handleEvent cfg doneState Event.keyR = resetSession cfg doneState ∧
    midRunState.started = true ∧ midRunState.session_done = false ∧
    handleEvent cfg midRunState Event.space = midRunState ∧
    (resetSession cfg doneState).idx = 0 :=
  ⟨rfl, restart_full_reset.1 doneState rfl, rfl, rfl,
    (restart_full_reset.2.2.2.1 midRunState rfl rfl).2.1,
    (restart_full_reset.2.2.2.2 doneState).2.1⟩

/-! ## C2 — battery voltage and session evolution -/

/-- The freeze scenario: one tick away from the end of a `TRÁS` phase. -/
def c2state : State :=
  { baseState with started := true, phase_name := Phase.TRAS, phase_left := 1 }

/-- The same tick with a healthy battery reading (5 V). -/
def c2inGood : Input := { dt := 2, raw := 0, battery := some 5, events := [] }

/-- The same tick with a low battery reading (3.5 V). -/
def c2inLow : Input := { dt := 2, raw := 0, battery := some (mkRat 7 2), events := [] }

unseal Rat.add Rat.sub Rat.mul in
/-- C2 (failing input): two ticks from the same running state receive the
same `dt`, angle and (absent) events, differing only in battery voltage.
With 5 V the `TRÁS` phase expires: the phase index advances, a repetition
is recorded.  With 3.5 V the low-battery branch of the banner `elif` chain
short-circuits the phase state machine: the phase timer is not even
decremented and nothing advances — while the per-repetition elapsed-time
metric still accrues.  Battery voltage therefore does alter phase
progression, phase timers, repetition counting and the session report,
contradicting the claim (and §7(c) of the spec). -/
theorem low_battery_freezes_phase_machine :
    (tick cfg c2state c2inGood).idx = 1 ∧
    (tick cfg c2state c2inGood).reps_done = 1 ∧
    (tick cfg c2state c2inGood).report_rows =
      [{ dir := Phase.TRAS, ang_ext := 0, t_target := none }] ∧
    (tick cfg c2state c2inGood).phase_name = Phase.TRANSICAO ∧
    (tick cfg c2state c2inLow).idx = 0 ∧
    (tick cfg c2state c2inLow).reps_done = 0 ∧
    (tick cfg c2state c2inLow).report_rows = [] ∧
    (tick cfg c2state c2inLow).phase_left = 1 ∧
    (tick cfg c2state c2inLow).phase_name = Phase.TRAS ∧
    (tick cfg c2state c2inLow).rep_t_elapsed = 2 := by
  decide


/-! ## C3 — TRANSITION settle semantics -/

/-- A running state at the start of the first `TRANSIÇÃO` phase
(sequence index 1). -/
def transState : State :=
  { baseState with started := true, idx := 1, phase_name := Phase.TRANSICAO, phase_left := 6 }

/-- A half-second tick whose angle stays at zero (inside the settle
tolerance). -/
def inSettle : Input := { dt := mkRat 1 2, raw := 0, battery := none, events := [] }

/-- A half-second tick whose angle stays at 10° (outside the settle
tolerance). -/
def inNoise : Input := { dt := mkRat 1 2, raw := 10, battery := none, events := [] }

unseal Rat.add Rat.mul Rat.sub in
set_option maxRecDepth 40000 in
/-- C3: on every active tick of a `TRANSIÇÃO` phase, `dt` is added to
`settle_total_time`; `settle_ok_time` accumulates `dt` while the angle is
within the tolerance and resets to `0` otherwise (the window is
continuous); the phase exits exactly when the new `settle_ok_time` reaches
`settle_time` or the new `settle_total_time` reaches `settle_max`, on exit
both accumulators are zeroed and the index advances (or the session
completes).  Concretely (tolerance 2.5, settle 3 s, cap 6 s, ticks of
0.5 s): an angle continuously at zero exits on the 6th tick (t = 3 s) and
not before, and an angle stuck at 10° exits on the 12th tick (t = 6 s)
and not before. -/
theorem transition_settle_semantics :
    (∀ (s : State) (inp : Input),
      inp.events = [] → s.calibrating = false → s.started = true →
      s.start_cd_left ≤ 0 → s.session_done = false →
      lowBattery inp.battery = false → s.phase_name = Phase.TRANSICAO →
      (¬ ((if |inp.raw - s.zero| ≤ cfg.settle_tol_deg then s.settle_ok_time + inp.dt else 0) ≥
            cfg.settle_time ∨ s.settle_total_time + inp.dt ≥ cfg.settle_max) →
        (tick cfg s inp).settle_total_time = s.settle_total_time + inp.dt ∧
        (tick cfg s inp).settle_ok_time =
          (if |inp.raw - s.zero| ≤ cfg.settle_tol_deg then s.settle_ok_time + inp.dt else 0) ∧
        (tick cfg s inp).idx = s.idx ∧
        (tick cfg s inp).phase_name = Phase.TRANSICAO ∧
        (tick cfg s inp).session_done = false) ∧
      (((if |inp.raw - s.zero| ≤ cfg.settle_tol_deg then s.settle_ok_time + inp.dt else 0) ≥
            cfg.settle_time ∨ s.settle_total_time + inp.dt ≥ cfg.settle_max) →
        (tick cfg s inp).settle_ok_time = 0 ∧
        (tick cfg s inp).settle_total_time = 0 ∧
        (tick cfg s inp).idx = s.idx + 1 ∧
        (s.idx + 1 ≥ (buildSeq cfg).length → (tick cfg s inp).session_done = true) ∧
        (s.idx + 1 < (buildSeq cfg).length →
          (tick cfg s inp).session_done = false ∧
          (tick cfg s inp).phase_name = ((buildSeq cfg).getD (s.idx + 1) (Phase.DESCANSO, 0)).1 ∧
          (tick cfg s inp).phase_left = ((buildSeq cfg).getD (s.idx + 1) (Phase.DESCANSO, 0)).2))) ∧
    ((run cfg transState (List.replicate 5 inSettle)).idx = 1 ∧
     (run cfg transState (List.replicate 5 inSettle)).settle_ok_time = mkRat 5 2 ∧
     (run cfg transState (List.replicate 6 inSettle)).idx = 2 ∧
     (run cfg transState (List.replicate 6 inSettle)).phase_name = Phase.FRENTE ∧
     (run cfg transState (List.replicate 6 inSettle)).settle_ok_time = 0 ∧
     (run cfg transState (List.replicate 6 inSettle)).settle_total_time = 0 ∧
     (run cfg transState (List.replicate 11 inNoise)).idx = 1 ∧
     (run cfg transState (List.replicate 11 inNoise)).settle_ok_time = 0 ∧
     (run cfg transState (List.replicate 12 inNoise)).idx = 2 ∧
     (run cfg transState (List.replicate 12 inNoise)).phase_name = Phase.FRENTE) := by
  constructor
  · intro s inp h_ev h_cal h_st h_cd h_done h_bat h_ph
    rw [tick_active s inp h_ev h_cal h_st h_cd h_done h_bat]
    rw [phaseTick_transition cfg
      { s with
        now := s.now + inp.dt
        prev_angle_used := inp.raw - s.zero
        angle_state := hysteresisStep cfg s.angle_state (inp.raw - s.zero) }
      inp.dt (inp.raw - s.zero) h_ph]
    dsimp only
    constructor
    · intro hno
      rw [if_neg hno]
      simp only [physStage_settle_total_time, physStage_settle_ok_time, physStage_idx,
        physStage_phase_name, physStage_session_done, metricsStage_settle_total_time,
        metricsStage_settle_ok_time, metricsStage_idx, metricsStage_phase_name,
        metricsStage_session_done]
      simp [h_ph, h_done]
    · intro hex
      rw [if_pos hex]
      simp only [physStage_settle_total_time, physStage_settle_ok_time, physStage_idx,
        physStage_phase_name, physStage_phase_left, physStage_session_done,
        metricsStage_settle_total_time, metricsStage_settle_ok_time, metricsStage_idx,
        metricsStage_phase_name, metricsStage_phase_left, metricsStage_session_done,
        advancePhase_settle_ok_time, advancePhase_settle_total_time, advancePhase_idx]
      refine ⟨trivial, trivial, trivial, ?_, ?_⟩
      · intro hge
        exact advancePhase_done_of_ge cfg _ hge
      · intro hlt
        have h3 := advancePhase_of_lt cfg
          { s with
            now := s.now + inp.dt
            prev_angle_used := inp.raw - s.zero
            angle_state := hysteresisStep cfg s.angle_state (inp.raw - s.zero)
            phase_left := s.phase_left - inp.dt
            settle_ok_time := 0
            settle_total_time := 0 }
          hlt
        exact ⟨by rw [h3.1]; exact h_done, h3.2.1, h3.2.2⟩
  · refine ⟨?_, ?_, ?_, ?_, ?_, ?_, ?_, ?_, ?_, ?_⟩ <;> decide

unseal Rat.add Rat.mul Rat.sub in
/-- Witness for C3 at the concrete state `transState` and tick `inSettle`:
a non-exiting settle tick adds `dt` to both accumulators. -/
theorem transition_settle_semantics_witness :
    (tick cfg transState inSettle).settle_total_time =
      transState.settle_total_time + inSettle.dt ∧
    (tick cfg transState inSettle).settle_ok_time =
      (if |inSettle.raw - transState.zero| ≤ cfg.settle_tol_deg then
        transState.settle_ok_time + inSettle.dt else 0) :=
  ⟨((transition_settle_semantics.1 transState inSettle rfl rfl rfl (by decide) rfl rfl
      rfl).1 (by decide)).1,
   ((transition_settle_semantics.1 transState inSettle rfl rfl rfl (by decide) rfl rfl
      rfl).1 (by decide)).2.1⟩


/-! ## C4 — RepRecord appending -/

/-- C4: on an active tick of a `TRÁS`/`FRENTE` phase whose remaining time
reaches 0, exactly one `RepRecord` is appended — its extreme clamped
toward the natural sign of the phase (`max 0` for `FRENTE`, `min 0` for
`TRÁS`, hence `0` when no motion in that direction occurred), its
time-to-target copied — repetitions-completed increments and the phase
index advances (the session completing if no phases remain).  A
non-expiring REP tick, any other event-free tick (TRANSITION ticks,
countdown, completed or unstarted sessions, low battery), an open
calibration window, a restart and `reset_session` itself never append a
record. -/
theorem rep_record_append_semantics :
    (∀ (s : State) (inp : Input),
      inp.events = [] → s.calibrating = false → s.started = true →
      s.start_cd_left ≤ 0 → s.session_done = false →
      lowBattery inp.battery = false →
      (s.phase_name = Phase.TRAS ∨ s.phase_name = Phase.FRENTE) →
      (s.phase_left - inp.dt ≤ 0 →
        (tick cfg s inp).report_rows = s.report_rows ++
          [{ dir := s.phase_name
             ang_ext := if s.phase_name = Phase.FRENTE then max 0 (s.rep_ang_ext.getD 0)
               else min 0 (s.rep_ang_ext.getD 0)
             t_target := s.rep_t_to_target }] ∧
        (tick cfg s inp).reps_done = s.reps_done + 1 ∧
        (tick cfg s inp).idx = s.idx + 1 ∧
        (s.idx + 1 ≥ (buildSeq cfg).length → (tick cfg s inp).session_done = true) ∧
        (s.idx + 1 < (buildSeq cfg).length → (tick cfg s inp).session_done = false)) ∧
      (s.phase_left - inp.dt > 0 →
        (tick cfg s inp).report_rows = s.report_rows ∧
        (tick cfg s inp).reps_done = s.reps_done ∧
        (tick cfg s inp).idx = s.idx ∧
        (tick cfg s inp).phase_left = s.phase_left - inp.dt)) ∧
    (∀ (s : State) (inp : Input),
      inp.events = [] → s.calibrating = false →
      ¬ (s.started = true ∧ s.start_cd_left ≤ 0 ∧ s.session_done = false ∧
          lowBattery inp.battery = false ∧
          (s.phase_name = Phase.TRAS ∨ s.phase_name = Phase.FRENTE) ∧
          s.phase_left - inp.dt ≤ 0) →
      (tick cfg s inp).report_rows = s.report_rows) ∧
    (∀ (s : State) (inp : Input),
      inp.events = [] → s.calibrating = true →
      ¬ (s.now + inp.dt - s.cal_t0 ≥ calTime) →
      (tick cfg s inp).report_rows = s.report_rows) ∧
    (∀ (s : State) (e : Event),
      (handleEvent cfg s e).report_rows = s.report_rows ∨
        (handleEvent cfg s e).report_rows = []) ∧
    (∀ s : State, (resetSession cfg s).report_rows = []) := by
  refine ⟨?_, ?_, ?_, ?_, fun s => rfl⟩
  · intro s inp h_ev h_cal h_st h_cd h_done h_bat h_rep
    rw [tick_active s inp h_ev h_cal h_st h_cd h_done h_bat]
    rw [phaseTick_rep cfg
      { s with
        now := s.now + inp.dt
        prev_angle_used := inp.raw - s.zero
        angle_state := hysteresisStep cfg s.angle_state (inp.raw - s.zero) }
      inp.dt (inp.raw - s.zero) h_rep]
    dsimp only
    constructor
    · intro hend
      rw [if_pos hend]
      refine ⟨?_, ?_, ?_, ?_, ?_⟩
      · rw [physStage_report_rows, metricsStage_report_rows, advancePhase_report_rows]
        rw [show
          ({ finalizeRep
              { s with
                now := s.now + inp.dt
                prev_angle_used := inp.raw - s.zero
                angle_state := hysteresisStep cfg s.angle_state (inp.raw - s.zero) } with
             phase_left := s.phase_left - inp.dt } : State).report_rows =
            (finalizeRep
              { s with
                now := s.now + inp.dt
                prev_angle_used := inp.raw - s.zero
                angle_state := hysteresisStep cfg s.angle_state (inp.raw - s.zero) }).report_rows
          from rfl]
        rw [finalizeRep_report_rows]
      · rw [physStage_reps_done, metricsStage_reps_done, advancePhase_reps_done]
        rfl
      · rw [physStage_idx, metricsStage_idx, advancePhase_idx]
        rfl
      · intro hge
        rw [physStage_session_done, metricsStage_session_done]
        exact advancePhase_done_of_ge cfg _ hge
      · intro hlt
        rw [physStage_session_done, metricsStage_session_done]
        have h3 := advancePhase_of_lt cfg
          { finalizeRep
              { s with
                now := s.now + inp.dt
                prev_angle_used := inp.raw - s.zero
                angle_state := hysteresisStep cfg s.angle_state (inp.raw - s.zero) } with
            phase_left := s.phase_left - inp.dt }
          hlt
        rw [h3.1]
        exact h_done
    · intro hpos
      rw [if_neg (not_le.mpr hpos)]
      refine ⟨?_, ?_, ?_, ?_⟩
      · rw [physStage_report_rows, metricsStage_report_rows]
      · rw [physStage_reps_done, metricsStage_reps_done]
      · rw [physStage_idx, metricsStage_idx]
      · rw [physStage_phase_left, metricsStage_phase_left]
  · intro s inp h_ev h_cal hnot
    rw [tick_nocal s inp h_ev h_cal]
    rw [physStage_report_rows, metricsStage_report_rows]
    have hcalH : (hystStage cfg
        { s with
          now := s.now + inp.dt
          prev_angle_used := gatedAngle { s with now := s.now + inp.dt } inp.raw }
        (gatedAngle { s with now := s.now + inp.dt } inp.raw)).calibrating = false := by
      rw [hystStage_calibrating]
      exact h_cal
    by_cases hb : lowBattery inp.battery = true
    · rw [bannerPhaseStage_lowbat cfg _ _ _ _ hcalH hb, hystStage_report_rows]
    · have hb2 : lowBattery inp.battery = false := by
        cases hx : lowBattery inp.battery
        · rfl
        · exact absurd hx hb
      by_cases hs : s.started = true
      · by_cases hcd : s.start_cd_left > 0
        · rw [bannerPhaseStage_countdown cfg _ _ _ _ hcalH hb2
            (by rw [hystStage_started]; exact hs)
            (by rw [hystStage_start_cd_left]; exact hcd)]
          rw [show ∀ t : State, ({ t with start_cd_left := t.start_cd_left - inp.dt } :
            State).report_rows = t.report_rows from fun t => rfl]
          rw [hystStage_report_rows]
        · by_cases hd : s.session_done = true
          · rw [bannerPhaseStage_done cfg _ _ _ _ hcalH hb2
              (by rw [hystStage_started]; exact hs)
              (by rw [hystStage_start_cd_left]; exact hcd) 
              (by rw [hystStage_session_done]; exact hd)]
            rw [hystStage_report_rows]
          · have hd2 : s.session_done = false := by
              cases hx : s.session_done
              · rfl
              · exact absurd hx hd
            rw [bannerPhaseStage_run cfg _ _ _ _ hcalH hb2
              (by rw [hystStage_started]; exact hs)
              (by rw [hystStage_start_cd_left]; exact hcd)
              (by rw [hystStage_session_done]; exact hd2)]
            rw [phaseTick_report_unchanged cfg _ _ _ ?hno, hystStage_report_rows]
            case hno =>
              intro hcontra
              rw [hystStage_phase_name, hystStage_phase_left] at hcontra
              exact hnot ⟨hs, not_lt.mp hcd, hd2, hb2, hcontra.1, hcontra.2⟩
      · have hs2 : s.started = false := by
          cases hx : s.started
          · rfl
          · exact absurd hx hs
        rw [bannerPhaseStage_notstarted cfg _ _ _ _ hcalH hb2
          (by rw [hystStage_started]; exact hs2)]
        rw [hystStage_report_rows]
  · intro s inp h_ev h_cal h_time
    simp only [tick, h_ev, List.foldl_nil]
    rw [physStage_report_rows, metricsStage_report_rows]
    have hcs : calStage { s with now := s.now + inp.dt } inp.raw =
        { s with now := s.now + inp.dt,
                 cal_buf := s.cal_buf ++ [inp.raw] } := by
      simp only [calStage, h_cal, if_true]
      rw [if_neg h_time]
    rw [hcs]
    rw [bannerPhaseStage_cal cfg _ _ _ _ (by rw [hystStage_calibrating]; exact h_cal)]
    rw [hystStage_report_rows]
  · intro s e
    cases e with
    | space =>
      by_cases h : s.started = false
      · right
        simp only [handleEvent, h, if_true]
        rfl
      · left
        simp only [handleEvent]
        rw [if_neg h]
    | keyR =>
      by_cases h : s.session_done = true
      · right
        simp only [handleEvent, h, if_true]
        rfl
      · left
        simp only [handleEvent]
        rw [if_neg h]
    | keyC => left; rfl
    | keyZ => left; rfl
    | clickRestart =>
      by_cases h : s.session_done = true
      · right
        simp only [handleEvent, h, if_true]
        rfl
      · left
        simp only [handleEvent]
        rw [if_neg h]

unseal Rat.add Rat.mul Rat.sub in
/-- Witness for C4 at the concrete ending tick (`c2state`, phase `TRÁS`
with 1 s remaining, `dt = 2`): exactly one record, clamped to `0`
(no motion occurred), is appended and the count increments. -/
theorem rep_record_append_semantics_witness :
    (tick cfg c2state c2inGood).report_rows = c2state.report_rows ++
      [{ dir := c2state.phase_name
         ang_ext := if c2state.phase_name = Phase.FRENTE then
             max 0 (c2state.rep_ang_ext.getD 0)
           else min 0 (c2state.rep_ang_ext.getD 0)
         t_target := c2state.rep_t_to_target }] ∧
    (tick cfg c2state c2inGood).reps_done = c2state.reps_done + 1 :=
  ⟨((rep_record_append_semantics.1 c2state c2inGood rfl rfl rfl (by decide) rfl rfl
      (Or.inl rfl)).1 (by decide)).1,
   ((rep_record_append_semantics.1 c2state c2inGood rfl rfl rfl (by decide) rfl rfl
      (Or.inl rfl)).1 (by decide)).2.1⟩


/-! ## C5 — time-to-target bookkeeping -/

/-- The target test of the `Métricas por repetição` block of `main`
(`angle >= target_front` in a `FRENTE` phase, `angle <= target_back` in a
`TRÁS` phase). -/
def hitsTarget (c : Cfg) (ph : Phase) (a : ℚ) : Prop :=
  (ph = Phase.FRENTE ∧ a ≥ c.target_front) ∨ (ph = Phase.TRAS ∧ a ≤ c.target_back)

instance (c : Cfg) (ph : Phase) (a : ℚ) : Decidable (hitsTarget c ph a) := by
  unfold hitsTarget; infer_instance

/-- The elapsed-in-phase time at the first tick whose angle crosses the
configured target, over a list of `(dt, angle)` ticks starting from an
elapsed time `acc` — `none` when no tick crosses it.  (The elapsed time is
incremented before the crossing test, as in the source.) -/
def timeToTarget (c : Cfg) (ph : Phase) : List (ℚ × ℚ) → ℚ → Option ℚ
  | [], _ => none
  | p :: rest, acc =>
    if hitsTarget c ph p.2 then some (acc + p.1) else timeToTarget c ph rest (acc + p.1)

/-- Folding the per-repetition metrics update over a list of `(dt, angle)`
ticks of one REP phase. -/
def runMetrics (c : Cfg) (s : State) (l : List (ℚ × ℚ)) : State :=
  l.foldl (fun t p => metricsTick c t p.1 p.2) s

theorem metricsTick_of_hit (c : Cfg) (s : State) (dt a : ℚ) (h : s.rep_hit = true) :
    (metricsTick c s dt a).rep_t_to_target = s.rep_t_to_target ∧
      (metricsTick c s dt a).rep_hit = true := by
  have hcond : ¬ (s.rep_hit = false ∧
      ((s.phase_name = Phase.FRENTE ∧ a ≥ c.target_front) ∨
        (s.phase_name = Phase.TRAS ∧ a ≤ c.target_back))) := by
    rw [h]; simp
  simp only [metricsTick, if_neg hcond]
  exact ⟨trivial, h⟩

theorem metricsTick_of_cross (c : Cfg) (s : State) (dt a : ℚ)
    (hcond : s.rep_hit = false ∧
      ((s.phase_name = Phase.FRENTE ∧ a ≥ c.target_front) ∨
        (s.phase_name = Phase.TRAS ∧ a ≤ c.target_back))) :
    (metricsTick c s dt a).rep_t_to_target = some (s.rep_t_elapsed + dt) ∧
      (metricsTick c s dt a).rep_hit = true := by
  simp only [metricsTick, if_pos hcond]
  exact ⟨trivial, trivial⟩

theorem metricsTick_of_nocross (c : Cfg) (s : State) (dt a : ℚ)
    (hcond : ¬ (s.rep_hit = false ∧
      ((s.phase_name = Phase.FRENTE ∧ a ≥ c.target_front) ∨
        (s.phase_name = Phase.TRAS ∧ a ≤ c.target_back)))) :
    (metricsTick c s dt a).rep_t_to_target = s.rep_t_to_target ∧
    (metricsTick c s dt a).rep_hit = s.rep_hit ∧
    (metricsTick c s dt a).rep_t_elapsed = s.rep_t_elapsed + dt ∧
    (metricsTick c s dt a).phase_name = s.phase_name := by
  simp only [metricsTick, if_neg hcond]
  exact ⟨trivial, trivial, trivial, trivial⟩

theorem runMetrics_of_hit (c : Cfg) :
    ∀ (l : List (ℚ × ℚ)) (s : State), s.rep_hit = true →
      (runMetrics c s l).rep_t_to_target = s.rep_t_to_target ∧
        (runMetrics c s l).rep_hit = true := by
  intro l
  induction l with
  | nil => intro s h; exact ⟨rfl, h⟩
  | cons p rest ih =>
    intro s h
    have hstep := metricsTick_of_hit c s p.1 p.2 h
    have hrec := ih (metricsTick c s p.1 p.2) hstep.2
    constructor
    · show (runMetrics c (metricsTick c s p.1 p.2) rest).rep_t_to_target = _
      rw [hrec.1, hstep.1]
    · show (runMetrics c (metricsTick c s p.1 p.2) rest).rep_hit = true
      exact hrec.2

theorem runMetrics_timeToTarget (c : Cfg) (ph : Phase) :
    ∀ (l : List (ℚ × ℚ)) (s : State),
      s.phase_name = ph → s.rep_hit = false → s.rep_t_to_target = none →
      (runMetrics c s l).rep_t_to_target = timeToTarget c ph l s.rep_t_elapsed := by
  intro l
  induction l with
  | nil =>
    intro s h1 h2 h3
    exact h3
  | cons p rest ih =>
    intro s h1 h2 h3
    by_cases hh : hitsTarget c ph p.2
    · have hcond : s.rep_hit = false ∧
          ((s.phase_name = Phase.FRENTE ∧ p.2 ≥ c.target_front) ∨
            (s.phase_name = Phase.TRAS ∧ p.2 ≤ c.target_back)) := by
        refine ⟨h2, ?_⟩
        rw [h1]
        exact hh
      have hstep := metricsTick_of_cross c s p.1 p.2 hcond
      have hrun := runMetrics_of_hit c rest (metricsTick c s p.1 p.2) hstep.2
      show (runMetrics c (metricsTick c s p.1 p.2) rest).rep_t_to_target = _
      rw [hrun.1, hstep.1]
      simp only [timeToTarget, if_pos hh]
    · have hcond : ¬ (s.rep_hit = false ∧
          ((s.phase_name = Phase.FRENTE ∧ p.2 ≥ c.target_front) ∨
            (s.phase_name = Phase.TRAS ∧ p.2 ≤ c.target_back))) := by
        intro hc
        apply hh
        rw [h1] at hc
        exact hc.2
      have hstep := metricsTick_of_nocross c s p.1 p.2 hcond
      have hrec := ih (metricsTick c s p.1 p.2)
        (by rw [hstep.2.2.2]; exact h1)
        (by rw [hstep.2.1]; exact h2)
        (by rw [hstep.1]; exact h3)
      show (runMetrics c (metricsTick c s p.1 p.2) rest).rep_t_to_target = _
      rw [hrec, hstep.2.2.1]
      simp only [timeToTarget, if_neg hh]

theorem timeToTarget_none_iff (c : Cfg) (ph : Phase) :
    ∀ (l : List (ℚ × ℚ)) (acc : ℚ),
      (timeToTarget c ph l acc = none ↔ ∀ p ∈ l, ¬ hitsTarget c ph p.2) := by
  intro l
  induction l with
  | nil => intro acc; simp [timeToTarget]
  | cons p rest ih =>
    intro acc
    by_cases hh : hitsTarget c ph p.2
    · simp [timeToTarget, hh]
    · simp [timeToTarget, hh, ih (acc + p.1)]

theorem timeToTarget_first_cross (c : Cfg) (ph : Phase) :
    ∀ (l1 : List (ℚ × ℚ)) (p : ℚ × ℚ) (l2 : List (ℚ × ℚ)) (acc : ℚ),
      (∀ q ∈ l1, ¬ hitsTarget c ph q.2) → hitsTarget c ph p.2 →
      timeToTarget c ph (l1 ++ p :: l2) acc =
        some (acc + (l1.map Prod.fst).sum + p.1) := by
  intro l1
  induction l1 with
  | nil =>
    intro p l2 acc h1 h2
    simp [timeToTarget, h2]
  | cons q rest ih =>
    intro p l2 acc h1 h2
    have hq : ¬ hitsTarget c ph q.2 := h1 q (List.mem_cons_self q rest)
    simp only [List.cons_append, timeToTarget, if_neg hq, List.append_eq]
    rw [ih p l2 (acc + q.1) (fun r hr => h1 r (List.mem_cons_of_mem _ hr)) h2]
    simp only [List.map_cons, List.sum_cons, Option.some.injEq]
    ring

theorem metricsStage_on (c : Cfg) (s : State) (dt a : ℚ) (h : metricsOn s) :
    metricsStage c s dt a = metricsTick c s dt a := by
  simp only [metricsStage, if_pos h]

theorem metricsTick_key_fields (c : Cfg) (s1 s2 : State) (dt a : ℚ)
    (h1 : s1.rep_hit = s2.rep_hit) (h2 : s1.phase_name = s2.phase_name)
    (h3 : s1.rep_t_elapsed = s2.rep_t_elapsed)
    (h4 : s1.rep_t_to_target = s2.rep_t_to_target) :
    (metricsTick c s1 dt a).rep_t_to_target = (metricsTick c s2 dt a).rep_t_to_target ∧
    (metricsTick c s1 dt a).rep_t_elapsed = (metricsTick c s2 dt a).rep_t_elapsed ∧
    (metricsTick c s1 dt a).rep_hit = (metricsTick c s2 dt a).rep_hit := by
  by_cases hcond : s2.rep_hit = false ∧
      ((s2.phase_name = Phase.FRENTE ∧ a ≥ c.target_front) ∨
        (s2.phase_name = Phase.TRAS ∧ a ≤ c.target_back))
  · have hcond1 : s1.rep_hit = false ∧
        ((s1.phase_name = Phase.FRENTE ∧ a ≥ c.target_front) ∨
          (s1.phase_name = Phase.TRAS ∧ a ≤ c.target_back)) := by
      rw [h1, h2]; exact hcond
    simp only [metricsTick, if_pos hcond, if_pos hcond1]
    exact ⟨by rw [h3], by rw [h3], trivial⟩
  · have hcond1 : ¬ (s1.rep_hit = false ∧
        ((s1.phase_name = Phase.FRENTE ∧ a ≥ c.target_front) ∨
          (s1.phase_name = Phase.TRAS ∧ a ≤ c.target_back))) := by
      rw [h1, h2]; exact hcond
    simp only [metricsTick, if_neg hcond, if_neg hcond1]
    exact ⟨h4, by rw [h3], h1⟩

/-- C5: over the ticks of one REP phase, the time-to-target accumulator
equals `timeToTarget` of the tick list; `timeToTarget` is `none` exactly
when no tick angle crossed the configured target, and when some tick
crosses it first, it equals the elapsed-in-phase time at that tick; the
finalized record copies the accumulator into its time-to-target field
(the not-a-number sentinel of the source, modelled as `none`, iff the target
was never reached); and on an active non-expiring REP tick the full loop
body updates the per-repetition metrics exactly by `metricsTick`. -/
theorem time_to_target_semantics :
    (∀ (s : State) (l : List (ℚ × ℚ)),
      (s.phase_name = Phase.TRAS ∨ s.phase_name = Phase.FRENTE) →
      s.rep_hit = false → s.rep_t_to_target = none →
      (runMetrics cfg s l).rep_t_to_target =
        timeToTarget cfg s.phase_name l s.rep_t_elapsed) ∧
    (∀ (ph : Phase) (l : List (ℚ × ℚ)) (acc : ℚ),
      (timeToTarget cfg ph l acc = none ↔ ∀ p ∈ l, ¬ hitsTarget cfg ph p.2)) ∧
    (∀ (ph : Phase) (l1 : List (ℚ × ℚ)) (p : ℚ × ℚ) (l2 : List (ℚ × ℚ)) (acc : ℚ),
      (∀ q ∈ l1, ¬ hitsTarget cfg ph q.2) → hitsTarget cfg ph p.2 →
      timeToTarget cfg ph (l1 ++ p :: l2) acc =
        some (acc + (l1.map Prod.fst).sum + p.1)) ∧
    (∀ s : State, ((finalizeRep s).report_rows.getLast? = some
      { dir := s.phase_name
        ang_ext := if s.phase_name = Phase.FRENTE then max 0 (s.rep_ang_ext.getD 0)
          else min 0 (s.rep_ang_ext.getD 0)
        t_target := s.rep_t_to_target })) ∧
    (∀ (s : State) (inp : Input),
      inp.events = [] → s.calibrating = false → s.started = true →
      s.start_cd_left ≤ 0 → s.session_done = false →
      lowBattery inp.battery = false →
      (s.phase_name = Phase.TRAS ∨ s.phase_name = Phase.FRENTE) →
      s.phase_left - inp.dt > 0 →
      (tick cfg s inp).rep_t_to_target =
        (metricsTick cfg s inp.dt (inp.raw - s.zero)).rep_t_to_target ∧
      (tick cfg s inp).rep_t_elapsed =
        (metricsTick cfg s inp.dt (inp.raw - s.zero)).rep_t_elapsed ∧
      (tick cfg s inp).rep_hit =
        (metricsTick cfg s inp.dt (inp.raw - s.zero)).rep_hit) := by
  refine ⟨?_, ?_, ?_, ?_, ?_⟩
  · intro s l _ h2 h3
    exact runMetrics_timeToTarget cfg s.phase_name l s rfl h2 h3
  · exact timeToTarget_none_iff cfg
  · exact timeToTarget_first_cross cfg
  · intro s
    rw [finalizeRep_report_rows]
    simp
  · intro s inp h_ev h_cal h_st h_cd h_done h_bat h_rep hpos
    rw [tick_active s inp h_ev h_cal h_st h_cd h_done h_bat]
    rw [phaseTick_rep cfg
      { s with
        now := s.now + inp.dt
        prev_angle_used := inp.raw - s.zero
        angle_state := hysteresisStep cfg s.angle_state (inp.raw - s.zero) }
      inp.dt (inp.raw - s.zero) h_rep]
    dsimp only
    rw [if_neg (not_le.mpr hpos)]
    rw [metricsStage_on cfg
      { s with
        now := s.now + inp.dt
        prev_angle_used := inp.raw - s.zero
        angle_state := hysteresisStep cfg s.angle_state (inp.raw - s.zero)
        phase_left := s.phase_left - inp.dt }
      inp.dt (inp.raw - s.zero) ⟨h_st, h_cd, h_cal, h_done, h_rep⟩]
    rw [physStage_rep_t_to_target, physStage_rep_t_elapsed, physStage_rep_hit]
    exact metricsTick_key_fields cfg _ s inp.dt (inp.raw - s.zero) rfl rfl rfl rfl

unseal Rat.add Rat.mul Rat.sub in
/-- Witness for C5 at a concrete two-tick `TRÁS` phase (from `c2state`):
angles `-25` then `5` with the target `-20` reached on the first tick of
1 s yield a time-to-target of 1 s, matching `timeToTarget`. -/
theorem time_to_target_semantics_witness :
    (runMetrics cfg c2state [(1, -25), (1, 5)]).rep_t_to_target =
      timeToTarget cfg c2state.phase_name [(1, -25), (1, 5)] c2state.rep_t_elapsed ∧
    timeToTarget cfg c2state.phase_name [(1, -25), (1, 5)] c2state.rep_t_elapsed =
      some 1 :=
  ⟨time_to_target_semantics.1 c2state [(1, -25), (1, 5)] (Or.inl rfl) rfl rfl,
   by decide⟩


end Jogo
